import Mathlib

/-!
# AURVideoScreenBase

A shallow embedding of `UAURVideoScreenBase` (AURVideoScreenBase.cpp): the
component state is a record, each member function is a function on that
record, and every call into the engine, the driver or the log is recorded in
an event trace so that "is called" / "is not called" can be stated.

Conventions of the embedding:

* object pointers are natural-number ids, a null pointer is `none`;
* dereferencing a null pointer makes the operation return `none`;
* a material slot holds a pointer to a material object or null (`GetMaterial` returns
  null for an empty slot); a material object is identified by its `id`: setting a
  parameter on an object shows in every slot that holds it;
* a reported resolution is a pair of natural numbers (`CreateTransient` returns a
  texture for positive sizes only); the source pitch of a texture write is narrowed to
  32 bits, as the `uint32 SourcePitch` parameter does;
* `float` arithmetic is read over an arbitrary field `K`; the transcendental
  functions of `FMath` are passed in as a record, so that the development can
  be instantiated at the real numbers;
* a render command enqueued by a tick is executed by the render thread before
  the next tick (the two threads run in lockstep, one command per frame).
-/

namespace AUR

/-! ## Engine types -/

/-- The functions of the engine's `FMath` the component uses. -/
structure FMath (K : Type) where
  Tan : K → K
  Sqrt : K → K
  PI : K

/-- Modelled from the spec: `FMath::DegreesToRadians` is engine code that is not
part of the repository; the spec's `tan(fov_h_deg · π / 360)` fixes it as
multiplication by `π / 180`. -/
def FMath.DegreesToRadians {K : Type} [Field K] (M : FMath K) (DegVal : K) : K :=
  DegVal * (M.PI / 180)

/-- Engine type `FVector`. -/
structure FVector (K : Type) where
  X : K
  Y : K
  Z : K

/-- Engine function `FVector::Size`: the Euclidean length. -/
def FVector.Size {K : Type} [Field K] (M : FMath K) (v : FVector K) : K :=
  M.Sqrt (v.X * v.X + v.Y * v.Y + v.Z * v.Z)

/-- Engine type `FIntPoint`. -/
structure FIntPoint where
  X : Nat
  Y : Nat
deriving DecidableEq, Repr

/-- What `UAURDriver::GetCameraParameters` writes to its three out-parameters. -/
structure CameraParameters (K : Type) where
  resolution : FIntPoint
  fov : K
  aspect_ratio : K

/-- Engine type `FUpdateTextureRegion2D`. -/
structure FUpdateTextureRegion2D where
  DestX : Nat
  DestY : Nat
  SrcX : Nat
  SrcY : Nat
  Width : Nat
  Height : Nat
deriving DecidableEq, Repr

/-- A material object (`UMaterialInterface`), as far as the component looks at it.
`hasVideoTexture` is the result of `GetTextureParameterValue("VideoTexture", _)`,
`isDynamic` says whether `Cast<UMaterialInstanceDynamic>` succeeds, and
`VideoTexture` is the value of the parameter. `id` is the object's address. -/
structure UMaterialInterface where
  id : Nat
  hasVideoTexture : Bool
  isDynamic : Bool
  Parent : Option Nat
  VideoTexture : Option Nat
deriving DecidableEq, Repr

/-- A texture object returned by `UTexture2D::CreateTransient`; `Resource` is the
render resource it has after `UpdateResource`. -/
structure UTexture2D where
  id : Nat
  Resource : Nat
deriving DecidableEq, Repr

/-- The record `FTextureUpdateParameters` read by the render command. -/
structure FTextureUpdateParameters where
  Texture2DResource : Option Nat
  RegionDefinition : FUpdateTextureRegion2D
  Driver : Option Nat
deriving DecidableEq, Repr

/-! ## Event trace -/

/-- Verbosity of a `UE_LOG` entry. -/
inductive ELogVerbosity where
  | Error
  | Log
deriving DecidableEq, Repr

/-- The log texts of the source file, one constructor per `UE_LOG` call site. -/
inductive LogText where
  | WorldIsNull
  | Initialized
  | DriverIsNull
  | NoVideoMaterial
  | CreateTextureFailed
  | ScreenSize
  | NullFrame
deriving DecidableEq, Repr

/-- The member function a driver query is made from. -/
inductive CallSite where
  | InitDynamicTexture
  | InitScreenSize
deriving DecidableEq, Repr

/-- One observable call made by the component. -/
inductive Event where
  | UE_LOG (verbosity : ELogVerbosity) (text : LogText)
  | SetWorld (driver : Nat)
  | GetCameraParameters (driver : Nat) (site : CallSite)
  | CreateTransient (InSizeX InSizeY : Nat)
  | UpdateResource (texture : Nat)
  | CreateDynamic (parent created : Nat)
  | SetMaterial (material_idx material : Nat)
  | SetTextureParameterValue (material texture : Nat)
  | SetRelativeScale3D
  | EnqueueRenderCommand
  | IsNewFrameAvailable (driver : Nat)
  | GetFrame (driver : Nat)
  | RHIUpdateTexture2D (Texture MipIndex : Nat) (UpdateRegion : FUpdateTextureRegion2D)
      (SourcePitch SourceData : Nat)
deriving DecidableEq, Repr

/-- Whether an event is an error-level log entry. -/
def Event.isError : Event → Bool
  | .UE_LOG .Error _ => true
  | _ => false

/-- Whether an event is a texture write. -/
def Event.isUpload : Event → Bool
  | .RHIUpdateTexture2D _ _ _ _ _ => true
  | _ => false

/-- Whether an event is a call of `UAURDriver::GetFrame`. -/
def Event.isGetFrame : Event → Bool
  | .GetFrame _ => true
  | _ => false

/-- Whether an event is a call of `UTexture2D::CreateTransient`. -/
def Event.isCreateTransient : Event → Bool
  | .CreateTransient _ _ => true
  | _ => false

/-- Whether an event is a call of `UMaterialInstanceDynamic::Create`. -/
def Event.isCreateDynamic : Event → Bool
  | .CreateDynamic _ _ => true
  | _ => false

/-- Whether an event is a call of `SetMaterial`. -/
def Event.isSetMaterial : Event → Bool
  | .SetMaterial _ _ => true
  | _ => false

/-- Whether an event is a call of `GetCameraParameters`. -/
def Event.isGetCameraParameters : Event → Bool
  | .GetCameraParameters _ _ => true
  | _ => false

/-! ## Component state and environment -/

/-- The state of one `UAURVideoScreenBase` component. -/
structure UAURVideoScreenBase (K : Type) where
  bSetSizeAutomatically : Bool
  bIsActive : Bool
  VideoDriver : Option Nat
  Materials : List (Option UMaterialInterface)
  DynamicTexture : Option UTexture2D
  TextureUpdateParameters : FTextureUpdateParameters
  RelativeLocation : FVector K
  RelativeScale3D : FVector K
  Trace : List Event

/-- What the engine and the driver answer during one call of `Initialize`. -/
structure Engine (K : Type) where
  HasWorld : Bool
  GetCameraParameters : Nat → CameraParameters K
  CreateTransient : Nat → Nat → Option UTexture2D

/-- The render commands the component enqueues. -/
inductive RenderCommand where
  | UpdateTextureRenderCommand
deriving DecidableEq, Repr

/-- What the render resource and the driver answer while one render command runs. -/
structure RenderFrame where
  CurrentFirstMip : Int
  NewFrameAvailable : Bool
  Frame : Option Nat
deriving DecidableEq, Repr

namespace UAURVideoScreenBase

variable {K : Type}

/-- Appends events to the trace. -/
def emit (s : UAURVideoScreenBase K) (es : List Event) : UAURVideoScreenBase K :=
  { s with Trace := s.Trace ++ es }

/-- Engine function `GetNumMaterials`. -/
def GetNumMaterials (s : UAURVideoScreenBase K) : Nat := s.Materials.length

/-- Engine function `GetMaterial`: the material of a slot, null (`none`) when the slot is
empty or the index is out of range. -/
def GetMaterial (s : UAURVideoScreenBase K) (material_idx : Nat) : Option UMaterialInterface :=
  match s.Materials[material_idx]? with
  | some (some material) => some material
  | _ => none

/-- Engine function `SetMaterial`: replaces the reference held by one slot. -/
def SetMaterial (s : UAURVideoScreenBase K) (material_idx : Nat) (m : UMaterialInterface) :
    UAURVideoScreenBase K :=
  { s with Materials := s.Materials.set material_idx (some m),
           Trace := s.Trace ++ [Event.SetMaterial material_idx m.id] }

/-- The address of the next object the engine allocates: one not held by any slot. -/
def NewObjectId (s : UAURVideoScreenBase K) : Nat :=
  (s.Materials.map (fun o => match o with
    | some m => m.id
    | none => 0)).foldr max 0 + 1

/-- Engine function `UMaterialInstanceDynamic::Create`: a new dynamic instance whose
parent is `material`; it inherits the parent's parameters. -/
def CreateDynamic (s : UAURVideoScreenBase K) (material : UMaterialInterface) :
    UMaterialInterface :=
  { id := s.NewObjectId, hasVideoTexture := material.hasVideoTexture, isDynamic := true,
    Parent := some material.id, VideoTexture := material.VideoTexture }

/-- Engine function `SetTextureParameterValue(FName("VideoTexture"), texture)` on the
material object with address `material`: every slot that holds this object sees it. -/
def SetTextureParameterValue (s : UAURVideoScreenBase K) (material texture : Nat) :
    UAURVideoScreenBase K :=
  { s with Materials := s.Materials.map (Option.map
             (fun m => if m.id = material then { m with VideoTexture := some texture } else m)),
           Trace := s.Trace ++ [Event.SetTextureParameterValue material texture] }

/-- The `for` loop of `FindVideoMaterial`, started at `material_idx` with `n` slots left.
The outer `none` is the null dereference `material->GetTextureParameterValue` on an empty
slot. -/
def FindVideoMaterialLoop (s : UAURVideoScreenBase K) :
    Nat → Nat → Option (Option Nat × UAURVideoScreenBase K)
  | 0, _ => some (none, s)
  | n + 1, material_idx =>
    match s.GetMaterial material_idx with
    | none => none
    | some material =>
      if material.hasVideoTexture then
        if material.isDynamic then
          some (some material.id, s)
        else
          let dynamic_material_instance := s.CreateDynamic material
          some (some dynamic_material_instance.id,
            (s.emit [Event.CreateDynamic material.id dynamic_material_instance.id]).SetMaterial
              material_idx dynamic_material_instance)
      else
        FindVideoMaterialLoop s n (material_idx + 1)

/-- `UAURVideoScreenBase::FindVideoMaterial`: the address of the dynamic material instance
(inner `none` for `nullptr`) and the state after the call; outer `none` when the loop
dereferences an empty slot. -/
def FindVideoMaterial (s : UAURVideoScreenBase K) :
    Option (Option Nat × UAURVideoScreenBase K) :=
  FindVideoMaterialLoop s s.GetNumMaterials 0

/-- `UAURVideoScreenBase::InitDynamicTexture`. -/
def InitDynamicTexture (s : UAURVideoScreenBase K) (env : Engine K) :
    Option (UAURVideoScreenBase K) :=
  match s.FindVideoMaterial with
  | none => none
  | some (none, s1) => some (s1.emit [Event.UE_LOG .Error .NoVideoMaterial])
  | some (some video_material, s1) =>
    match s1.VideoDriver with
    | none => none
    | some driver =>
      let resolution := (env.GetCameraParameters driver).resolution
      let s2 := s1.emit [Event.GetCameraParameters driver .InitDynamicTexture,
                         Event.CreateTransient resolution.X resolution.Y]
      match env.CreateTransient resolution.X resolution.Y with
      | none =>
        some ({ s2 with DynamicTexture := none, VideoDriver := none }.emit
          [Event.UE_LOG .Error .CreateTextureFailed])
      | some texture =>
        let s3 := ({ s2 with DynamicTexture := some texture }.emit
          [Event.UpdateResource texture.id]).SetTextureParameterValue video_material texture.id
        let whole_texture_region : FUpdateTextureRegion2D :=
          { SrcX := 0, SrcY := 0, DestX := 0, DestY := 0,
            Width := resolution.X, Height := resolution.Y }
        some { s3 with TextureUpdateParameters :=
                 { Texture2DResource := some texture.Resource,
                   RegionDefinition := whole_texture_region,
                   Driver := s3.VideoDriver } }

/-- `UAURVideoScreenBase::InitScreenSize`. -/
def InitScreenSize [Field K] (M : FMath K) (s : UAURVideoScreenBase K) (env : Engine K) :
    Option (UAURVideoScreenBase K) :=
  match s.VideoDriver with
  | none => none
  | some driver =>
    let cam := env.GetCameraParameters driver
    let distance_to_origin := FVector.Size M s.RelativeLocation
    let width := distance_to_origin * 2 * M.Tan (M.DegreesToRadians (0.5 * cam.fov))
    let height := width / cam.aspect_ratio
    some ({ s with RelativeScale3D := { X := width / 100, Y := height / 100, Z := 1 } }.emit
      [Event.GetCameraParameters driver .InitScreenSize, Event.UE_LOG .Log .ScreenSize,
       Event.SetRelativeScale3D])

/-- `UAURVideoScreenBase::Initialize`. -/
def Initialize [Field K] (M : FMath K) (s : UAURVideoScreenBase K) (env : Engine K)
    (Driver : Option Nat) : Option (UAURVideoScreenBase K) :=
  match Driver with
  | some driver =>
    let s1 := { s with VideoDriver := some driver }
    let s2 := if env.HasWorld then s1.emit [Event.SetWorld driver]
              else s1.emit [Event.UE_LOG .Error .WorldIsNull]
    match s2.InitDynamicTexture env with
    | none => none
    | some s3 =>
      match (if s3.bSetSizeAutomatically then InitScreenSize M s3 env else some s3) with
      | none => none
      | some s4 => some (s4.emit [Event.UE_LOG .Log .Initialized])
  | none => some (s.emit [Event.UE_LOG .Error .DriverIsNull])

/-- The body of the render command of `UpdateDynamicTexture`, run on the render thread
against the record it was given a pointer to: the calls it makes. -/
def UpdateTextureRenderCommand (UpdateParameters : FTextureUpdateParameters)
    (r : RenderFrame) : Option (List Event) :=
  match UpdateParameters.Texture2DResource with
  | none => none
  | some resource =>
    if r.CurrentFirstMip ≤ 0 then
      match UpdateParameters.Driver with
      | none => none
      | some driver =>
        if r.NewFrameAvailable then
          match r.Frame with
          | some new_video_frame =>
            some [Event.IsNewFrameAvailable driver, Event.GetFrame driver,
                  Event.RHIUpdateTexture2D resource 0 UpdateParameters.RegionDefinition
                    (4 * UpdateParameters.RegionDefinition.Width % 4294967296)
                    new_video_frame]
          | none =>
            some [Event.IsNewFrameAvailable driver, Event.GetFrame driver,
                  Event.UE_LOG .Error .NullFrame]
        else
          some [Event.IsNewFrameAvailable driver]
    else
      some []

/-- `UAURVideoScreenBase::UpdateDynamicTexture`: enqueues the render command. The
result is the state and the commands handed to the render thread. -/
def UpdateDynamicTexture (s : UAURVideoScreenBase K) :
    UAURVideoScreenBase K × List RenderCommand :=
  (s.emit [Event.EnqueueRenderCommand], [RenderCommand.UpdateTextureRenderCommand])

/-- `UAURVideoScreenBase::TickComponent`. -/
def TickComponent (s : UAURVideoScreenBase K) : UAURVideoScreenBase K × List RenderCommand :=
  if s.bIsActive && s.VideoDriver.isSome then s.UpdateDynamicTexture else (s, [])

/-- The render thread: runs the commands it was handed, each against the component's
`TextureUpdateParameters`, to which the command holds a pointer. -/
def RenderThread (s : UAURVideoScreenBase K) (r : RenderFrame) :
    List RenderCommand → Option (UAURVideoScreenBase K)
  | [] => some s
  | RenderCommand.UpdateTextureRenderCommand :: commands =>
    match UpdateTextureRenderCommand s.TextureUpdateParameters r with
    | none => none
    | some es => RenderThread (s.emit es) r commands

/-- One frame of the scene: the tick on the logic thread, then the render thread. -/
def Frame (s : UAURVideoScreenBase K) (r : RenderFrame) : Option (UAURVideoScreenBase K) :=
  RenderThread s.TickComponent.1 r s.TickComponent.2

/-- A finite sequence of frames. -/
def RunFrames (s : UAURVideoScreenBase K) : List RenderFrame → Option (UAURVideoScreenBase K)
  | [] => some s
  | r :: rs =>
    match s.Frame r with
    | none => none
    | some s1 => RunFrames s1 rs

end UAURVideoScreenBase

/-- Number of texture writes in a trace. -/
def uploads (t : List Event) : Nat := t.countP Event.isUpload

/-- Number of error-level log entries in a trace. -/
def errors (t : List Event) : Nat := t.countP Event.isError

/-- Number of `GetFrame` calls in a trace. -/
def getFrames (t : List Event) : Nat := t.countP Event.isGetFrame

/-- Number of enqueued render commands in a trace. -/
def enqueues (t : List Event) : Nat := t.count Event.EnqueueRenderCommand

/-- Slot `k` holds `m`, `m` declares the `VideoTexture` parameter, and every slot before
`k` holds a material that does not. -/
def IsFirstVideoSlot (Materials : List (Option UMaterialInterface)) (k : Nat)
    (m : UMaterialInterface) : Prop :=
  Materials[k]? = some (some m) ∧ m.hasVideoTexture = true ∧
    ∀ j : Nat, j < k → ∃ mj : UMaterialInterface,
      Materials[j]? = some (some mj) ∧ mj.hasVideoTexture = false

/-- Every slot holds a material, and none of them declares the `VideoTexture`
parameter. -/
def NoVideoSlot (Materials : List (Option UMaterialInterface)) : Prop :=
  ∀ o ∈ Materials, ∃ m : UMaterialInterface, o = some m ∧ m.hasVideoTexture = false

/-- Slot `k` is empty, and every slot before `k` holds a material that does not declare
the `VideoTexture` parameter: the search reaches the empty slot. -/
def EmptySlotReached (Materials : List (Option UMaterialInterface)) (k : Nat) : Prop :=
  Materials[k]? = some none ∧
    ∀ j : Nat, j < k → ∃ mj : UMaterialInterface,
      Materials[j]? = some (some mj) ∧ mj.hasVideoTexture = false

/-! ## Scenarios -/

/-- A material that is not a dynamic instance. -/
def plainMaterial (id : Nat) (hasVideoTexture : Bool) : UMaterialInterface :=
  { id := id, hasVideoTexture := hasVideoTexture, isDynamic := false, Parent := none,
    VideoTexture := none }

/-- Frames in which the top mip is resident, a new frame is available on every other
frame, starting with the first, and the driver's frame is never null. -/
def alternatingFrames (n : Nat) : List RenderFrame :=
  (List.range n).map (fun i =>
    { CurrentFirstMip := 0, NewFrameAvailable := i % 2 == 0, Frame := some i })

/-- A component as its constructor leaves it (size set automatically or not, active,
no driver, nothing bound), with the given material slots, placed at distance `d` on the
X axis of its parent. -/
def freshScreen {K : Type} [Field K] (bSetSizeAutomatically : Bool)
    (Materials : List (Option UMaterialInterface)) (d : K) : UAURVideoScreenBase K :=
  { bSetSizeAutomatically := bSetSizeAutomatically, bIsActive := true, VideoDriver := none,
    Materials := Materials, DynamicTexture := none,
    TextureUpdateParameters :=
      { Texture2DResource := none,
        RegionDefinition := { DestX := 0, DestY := 0, SrcX := 0, SrcY := 0, Width := 0, Height := 0 },
        Driver := none },
    RelativeLocation := { X := d, Y := 0, Z := 0 },
    RelativeScale3D := { X := 1, Y := 1, Z := 1 }, Trace := [] }

/-- An engine with a world whose driver reports the given camera parameters and whose
`CreateTransient` answers `texture`. -/
def scenarioEngine {K : Type} (w h : Nat) (fov aspect : K) (texture : Option UTexture2D) :
    Engine K :=
  { HasWorld := true,
    GetCameraParameters := fun _ => { resolution := { X := w, Y := h }, fov := fov,
                                      aspect_ratio := aspect },
    CreateTransient := fun _ _ => texture }

/-- An active component bound to driver 7 with a 640x480 texture whose render resource
is 11. -/
def boundScreen {K : Type} [Field K] (d : K) : UAURVideoScreenBase K :=
  { freshScreen true [some (plainMaterial 1 true)] d with
    VideoDriver := some 7,
    DynamicTexture := some { id := 10, Resource := 11 },
    TextureUpdateParameters :=
      { Texture2DResource := some 11,
        RegionDefinition :=
          { DestX := 0, DestY := 0, SrcX := 0, SrcY := 0, Width := 640, Height := 480 },
        Driver := some 7 } }

/-! ## The material search -/

namespace UAURVideoScreenBase

variable {K : Type}

/-- The material a slot holds is what `GetMaterial` returns for it. -/
theorem GetMaterial_some (s : UAURVideoScreenBase K) (k : Nat) (m : UMaterialInterface)
    (hk : s.Materials[k]? = some (some m)) : s.GetMaterial k = some m := by
  simp only [GetMaterial, hk]

/-- For an empty slot `GetMaterial` returns null. -/
theorem GetMaterial_none (s : UAURVideoScreenBase K) (k : Nat)
    (hk : s.Materials[k]? = some none) : s.GetMaterial k = none := by
  simp only [GetMaterial, hk]

/-- What `FindVideoMaterial` does once it stands at a slot whose material declares the
parameter: reuse a dynamic instance, or create one and install it in the slot. -/
theorem FindVideoMaterialLoop_hit (s : UAURVideoScreenBase K) (n k : Nat)
    (m : UMaterialInterface) (hk : s.Materials[k]? = some (some m))
    (hm : m.hasVideoTexture = true) :
    s.FindVideoMaterialLoop (n + 1) k =
      some (if m.isDynamic then (some m.id, s)
        else (some (s.CreateDynamic m).id,
          (s.emit [Event.CreateDynamic m.id (s.CreateDynamic m).id]).SetMaterial k
            (s.CreateDynamic m))) := by
  simp only [FindVideoMaterialLoop, GetMaterial_some s k m hk, hm, if_true]
  cases m.isDynamic <;> rfl

/-- The loop steps over slots that hold a material without the parameter. -/
theorem FindVideoMaterialLoop_skip (s : UAURVideoScreenBase K) :
    ∀ (d n idx : Nat),
      (∀ j : Nat, idx ≤ j → j < idx + d → ∃ mj : UMaterialInterface,
        s.Materials[j]? = some (some mj) ∧ mj.hasVideoTexture = false) →
      s.FindVideoMaterialLoop (d + n) idx = s.FindVideoMaterialLoop n (idx + d) := by
  intro d
  induction d with
  | zero => intro n idx _; simp
  | succ d ih =>
    intro n idx h
    obtain ⟨m0, hm0, hv0⟩ := h idx (le_refl _) (by omega)
    have hstep : s.FindVideoMaterialLoop (d + 1 + n) idx
        = s.FindVideoMaterialLoop (d + n) (idx + 1) := by
      rw [show d + 1 + n = (d + n) + 1 by omega]
      simp [FindVideoMaterialLoop, GetMaterial_some s idx m0 hm0, hv0]
    rw [hstep, ih n (idx + 1) (fun j h1 h2 => h j (by omega) (by omega))]
    rw [show idx + 1 + d = idx + (d + 1) by omega]

/-- `FindVideoMaterial` acts on the first declaring slot: it reuses a dynamic instance,
or creates one and installs it in that slot. -/
theorem FindVideoMaterial_first (s : UAURVideoScreenBase K) (k : Nat) (m : UMaterialInterface)
    (h : IsFirstVideoSlot s.Materials k m) :
    s.FindVideoMaterial =
      some (if m.isDynamic then (some m.id, s)
        else (some (s.CreateDynamic m).id,
          (s.emit [Event.CreateDynamic m.id (s.CreateDynamic m).id]).SetMaterial k
            (s.CreateDynamic m))) := by
  obtain ⟨hk, hm, hbefore⟩ := h
  have hklt : k < s.Materials.length := (List.getElem?_eq_some.mp hk).1
  have hskip := FindVideoMaterialLoop_skip s k (s.Materials.length - k) 0
    (fun j _ h2 => hbefore j (by omega))
  rw [show k + (s.Materials.length - k) = s.Materials.length by omega] at hskip
  rw [FindVideoMaterial, GetNumMaterials, hskip, Nat.zero_add,
    show s.Materials.length - k = (s.Materials.length - k - 1) + 1 by omega]
  exact FindVideoMaterialLoop_hit s _ k m hk hm

/-- When every slot holds a material and none declares the parameter, `FindVideoMaterial`
returns null and changes nothing. -/
theorem FindVideoMaterial_none (s : UAURVideoScreenBase K) (h : NoVideoSlot s.Materials) :
    s.FindVideoMaterial = some (none, s) := by
  have hskip := FindVideoMaterialLoop_skip s s.Materials.length 0 0 (by
    intro j _ hj
    have hjlt : j < s.Materials.length := by omega
    obtain ⟨m, hm, hv⟩ := h (s.Materials[j]) (List.getElem_mem hjlt)
    exact ⟨m, by rw [List.getElem?_eq_getElem hjlt, hm], hv⟩)
  rw [FindVideoMaterial, GetNumMaterials]
  rw [Nat.add_zero] at hskip
  rw [hskip]
  rfl

/-- When the search reaches an empty slot, `FindVideoMaterial` dereferences a null
pointer. -/
theorem FindVideoMaterial_empty (s : UAURVideoScreenBase K) (k : Nat)
    (h : EmptySlotReached s.Materials k) : s.FindVideoMaterial = none := by
  obtain ⟨hk, hbefore⟩ := h
  have hklt : k < s.Materials.length := (List.getElem?_eq_some.mp hk).1
  have hskip := FindVideoMaterialLoop_skip s k (s.Materials.length - k) 0
    (fun j _ h2 => hbefore j (by omega))
  rw [show k + (s.Materials.length - k) = s.Materials.length by omega] at hskip
  rw [FindVideoMaterial, GetNumMaterials, hskip, Nat.zero_add,
    show s.Materials.length - k = (s.Materials.length - k - 1) + 1 by omega]
  simp only [FindVideoMaterialLoop, GetMaterial_none s k hk]

/-- When every slot holds a material and some material declares the parameter, there is
a first declaring slot. -/
theorem IsFirstVideoSlot_exists :
    ∀ l : List (Option UMaterialInterface),
      (∀ o ∈ l, o ≠ none) →
      (∃ m : UMaterialInterface, some m ∈ l ∧ m.hasVideoTexture = true) →
      ∃ (k : Nat) (m : UMaterialInterface), IsFirstVideoSlot l k m := by
  intro l
  induction l with
  | nil =>
    intro _ hex
    obtain ⟨m, hm, -⟩ := hex
    cases hm
  | cons a l ih =>
    intro hall hex
    cases ha : a with
    | none => exact absurd ha (hall a (List.mem_cons_self a l))
    | some ma =>
      cases hv : ma.hasVideoTexture
      · obtain ⟨m, hm, hmv⟩ := hex
        have hml : some m ∈ l := by
          rcases List.mem_cons.mp hm with h | h
          · rw [ha] at h
            rw [Option.some.inj h, hv] at hmv
            exact absurd hmv (by decide)
          · exact h
        obtain ⟨k, m2, hk, hm2, hbefore⟩ :=
          ih (fun o ho => hall o (List.mem_cons_of_mem a ho)) ⟨m, hml, hmv⟩
        refine ⟨k + 1, m2, by simpa using hk, hm2, ?_⟩
        intro j hj
        cases j with
        | zero => exact ⟨ma, by simp, hv⟩
        | succ j =>
          obtain ⟨mj, hjm, hjv⟩ := hbefore j (by omega)
          exact ⟨mj, by simpa using hjm, hjv⟩
      · exact ⟨0, ma, by simp, hv, fun j hj => absurd hj (Nat.not_lt_zero j)⟩

/-- The address of a newly created object differs from that of every material in a
slot. -/
theorem NewObjectId_fresh (s : UAURVideoScreenBase K) :
    ∀ m : UMaterialInterface, some m ∈ s.Materials → m.id < s.NewObjectId := by
  have hgen : ∀ (l : List (Option UMaterialInterface)) (m : UMaterialInterface),
      some m ∈ l →
      m.id < (l.map (fun o => match o with
        | some m => m.id
        | none => 0)).foldr max 0 + 1 := by
    intro l
    induction l with
    | nil => intro m hm; cases hm
    | cons a l ih =>
      intro m hm
      simp only [List.map_cons, List.foldr_cons]
      rcases List.mem_cons.mp hm with h | h
      · subst h
        have := Nat.le_max_left m.id ((l.map (fun o => match o with
          | some m => m.id
          | none => 0)).foldr max 0)
        simp only at this ⊢
        omega
      · have h1 := ih m h
        have := Nat.le_max_right (match a with
          | some m => m.id
          | none => 0) ((l.map (fun o => match o with
          | some m => m.id
          | none => 0)).foldr max 0)
        omega
  exact hgen s.Materials

/-- Searching again right after `FindVideoMaterial` returns the same instance and
changes nothing. -/
theorem FindVideoMaterial_idem (s : UAURVideoScreenBase K) (k : Nat) (m : UMaterialInterface)
    (hfirst : IsFirstVideoSlot s.Materials k m) :
    ∃ (mid : Nat) (s1 : UAURVideoScreenBase K),
      s.FindVideoMaterial = some (some mid, s1) ∧ s1.FindVideoMaterial = some (some mid, s1) := by
  have hfind := FindVideoMaterial_first s k m hfirst
  have hklt : k < s.Materials.length := (List.getElem?_eq_some.mp hfirst.1).1
  cases hdyn : m.isDynamic
  · rw [hdyn] at hfind
    simp only [Bool.false_eq_true, if_false] at hfind
    have hfirst2 : IsFirstVideoSlot
        ((s.emit [Event.CreateDynamic m.id (s.CreateDynamic m).id]).SetMaterial k
          (s.CreateDynamic m)).Materials k (s.CreateDynamic m) := by
      refine ⟨?_, ?_, ?_⟩
      · simp [SetMaterial, emit, List.getElem?_set, hklt]
      · simpa [CreateDynamic] using hfirst.2.1
      · intro j hjk
        obtain ⟨mj, hjm, hv⟩ := hfirst.2.2 j hjk
        have hne : k ≠ j := by omega
        exact ⟨mj, by simp only [SetMaterial, emit, List.getElem?_set_ne hne]; exact hjm, hv⟩
    have hfind2 := FindVideoMaterial_first _ k (s.CreateDynamic m) hfirst2
    refine ⟨_, _, hfind, ?_⟩
    rw [hfind2]
    rfl
  · rw [hdyn] at hfind
    simp only [if_true] at hfind
    exact ⟨_, _, hfind, hfind⟩

/-- `InitDynamicTexture` when every slot holds a material and none declares the parameter: one error is logged and
nothing else happens. -/
theorem InitDynamicTexture_noMaterial (s : UAURVideoScreenBase K) (env : Engine K)
    (h : NoVideoSlot s.Materials) :
    s.InitDynamicTexture env = some (s.emit [Event.UE_LOG .Error .NoVideoMaterial]) := by
  simp only [InitDynamicTexture, FindVideoMaterial_none s h]

/-- `InitDynamicTexture` when the search reaches an empty slot: the null dereference in
`FindVideoMaterial` ends the call. -/
theorem InitDynamicTexture_empty (s : UAURVideoScreenBase K) (env : Engine K) (k : Nat)
    (h : EmptySlotReached s.Materials k) : s.InitDynamicTexture env = none := by
  simp only [InitDynamicTexture, FindVideoMaterial_empty s k h]

/-- `InitDynamicTexture` after the material search returned an instance and with a driver
set: the two outcomes of `CreateTransient`. -/
theorem InitDynamicTexture_found (s s1 : UAURVideoScreenBase K) (env : Engine K)
    (mid driver : Nat) (hfind : s.FindVideoMaterial = some (some mid, s1))
    (hdrv : s1.VideoDriver = some driver) :
    s.InitDynamicTexture env =
      match env.CreateTransient (env.GetCameraParameters driver).resolution.X
          (env.GetCameraParameters driver).resolution.Y with
      | none =>
        some ({ s1 with
          DynamicTexture := none, VideoDriver := none,
          Trace := s1.Trace ++
            [Event.GetCameraParameters driver .InitDynamicTexture,
             Event.CreateTransient (env.GetCameraParameters driver).resolution.X
               (env.GetCameraParameters driver).resolution.Y,
             Event.UE_LOG .Error .CreateTextureFailed] })
      | some texture =>
        some ({ s1 with
          DynamicTexture := some texture,
          Materials := s1.Materials.map (Option.map
            (fun m => if m.id = mid then { m with VideoTexture := some texture.id } else m)),
          TextureUpdateParameters :=
            { Texture2DResource := some texture.Resource,
              RegionDefinition :=
                { SrcX := 0, SrcY := 0, DestX := 0, DestY := 0,
                  Width := (env.GetCameraParameters driver).resolution.X,
                  Height := (env.GetCameraParameters driver).resolution.Y },
              Driver := some driver },
          Trace := s1.Trace ++
            [Event.GetCameraParameters driver .InitDynamicTexture,
             Event.CreateTransient (env.GetCameraParameters driver).resolution.X
               (env.GetCameraParameters driver).resolution.Y,
             Event.UpdateResource texture.id,
             Event.SetTextureParameterValue mid texture.id] }) := by
  simp only [InitDynamicTexture, hfind, hdrv]
  cases env.CreateTransient (env.GetCameraParameters driver).resolution.X
      (env.GetCameraParameters driver).resolution.Y with
  | none => simp [emit]
  | some texture => simp [emit, SetTextureParameterValue, hdrv]

/-- The state in which `Initialize` calls `InitDynamicTexture`: the driver is stored and
the world has been passed on (or its absence logged). -/
theorem Initialize_some [Field K] (M : FMath K) (s : UAURVideoScreenBase K) (env : Engine K)
    (driver : Nat) :
    ∃ e, (e = Event.SetWorld driver ∨ e = Event.UE_LOG .Error .WorldIsNull) ∧
      Initialize M s env (some driver) =
        match ({ s with VideoDriver := some driver }.emit [e]).InitDynamicTexture env with
        | none => none
        | some s3 =>
          match (if s3.bSetSizeAutomatically then InitScreenSize M s3 env else some s3) with
          | none => none
          | some s4 => some (s4.emit [Event.UE_LOG .Log .Initialized]) := by
  cases hw : env.HasWorld
  · exact ⟨_, Or.inr rfl, by simp only [Initialize, hw]; rfl⟩
  · exact ⟨_, Or.inl rfl, by simp only [Initialize, hw]; rfl⟩

/-- `InitScreenSize` with a driver set: it returns, and only the scale and the trace
change. -/
theorem InitScreenSize_some [Field K] (M : FMath K) (s : UAURVideoScreenBase K)
    (env : Engine K) (driver : Nat) (hdrv : s.VideoDriver = some driver) :
    ∃ scale : FVector K,
      InitScreenSize M s env = some { s with
        RelativeScale3D := scale,
        Trace := s.Trace ++ [Event.GetCameraParameters driver .InitScreenSize,
          Event.UE_LOG .Log .ScreenSize, Event.SetRelativeScale3D] } := by
  simp only [InitScreenSize, hdrv, emit]
  exact ⟨_, rfl⟩

/-- The scale `InitScreenSize` sets depends on the component only through its driver
reference and its location. -/
theorem InitScreenSize_congr [Field K] (M : FMath K) (s t : UAURVideoScreenBase K)
    (env : Engine K) (hdrv : s.VideoDriver = t.VideoDriver)
    (hloc : s.RelativeLocation = t.RelativeLocation) :
    (InitScreenSize M s env).map (fun x => x.RelativeScale3D)
      = (InitScreenSize M t env).map (fun x => x.RelativeScale3D) := by
  simp only [InitScreenSize, ← hdrv, ← hloc]
  cases s.VideoDriver <;> rfl

/-- `InitScreenSize` without a driver dereferences a null pointer. -/
theorem InitScreenSize_none [Field K] (M : FMath K) (s : UAURVideoScreenBase K)
    (env : Engine K) (hdrv : s.VideoDriver = none) : InitScreenSize M s env = none := by
  simp only [InitScreenSize, hdrv]

/-- `InitDynamicTexture` on a state with a driver and a first declaring slot `k`, when
`CreateTransient` returns a texture: the resulting state, in full. -/
theorem InitDynamicTexture_first (s : UAURVideoScreenBase K) (env : Engine K)
    (driver : Nat) (texture : UTexture2D) (k : Nat) (m : UMaterialInterface)
    (h : IsFirstVideoSlot s.Materials k m) (hdrv : s.VideoDriver = some driver)
    (htex : env.CreateTransient (env.GetCameraParameters driver).resolution.X
      (env.GetCameraParameters driver).resolution.Y = some texture) :
    s.InitDynamicTexture env = some { s with
      DynamicTexture := some texture,
      Materials :=
        (if m.isDynamic then s.Materials
          else s.Materials.set k (some (s.CreateDynamic m))).map (Option.map
          (fun x => if x.id = (if m.isDynamic then m.id else s.NewObjectId)
            then { x with VideoTexture := some texture.id } else x)),
      TextureUpdateParameters :=
        { Texture2DResource := some texture.Resource,
          RegionDefinition :=
            { SrcX := 0, SrcY := 0, DestX := 0, DestY := 0,
              Width := (env.GetCameraParameters driver).resolution.X,
              Height := (env.GetCameraParameters driver).resolution.Y },
          Driver := some driver },
      Trace := s.Trace ++
        (if m.isDynamic then []
         else [Event.CreateDynamic m.id s.NewObjectId, Event.SetMaterial k s.NewObjectId]) ++
        [Event.GetCameraParameters driver .InitDynamicTexture,
         Event.CreateTransient (env.GetCameraParameters driver).resolution.X
           (env.GetCameraParameters driver).resolution.Y,
         Event.UpdateResource texture.id,
         Event.SetTextureParameterValue (if m.isDynamic then m.id else s.NewObjectId)
           texture.id] } := by
  have hfind := FindVideoMaterial_first s k m h
  cases hdyn : m.isDynamic
  · rw [hdyn] at hfind
    simp only [Bool.false_eq_true, if_false] at hfind
    rw [InitDynamicTexture_found s _ env _ driver hfind hdrv, htex]
    simp [emit, SetMaterial, CreateDynamic]
  · rw [hdyn] at hfind
    simp only [if_true] at hfind
    rw [InitDynamicTexture_found s _ env _ driver hfind hdrv, htex]
    simp

/-- `InitDynamicTexture` on a state with a driver and a first declaring slot, when
`CreateTransient` returns null: the resulting state, in full; the driver reference is
cleared. -/
theorem InitDynamicTexture_first_failed (s : UAURVideoScreenBase K) (env : Engine K)
    (driver : Nat) (k : Nat) (m : UMaterialInterface)
    (h : IsFirstVideoSlot s.Materials k m) (hdrv : s.VideoDriver = some driver)
    (htex : env.CreateTransient (env.GetCameraParameters driver).resolution.X
      (env.GetCameraParameters driver).resolution.Y = none) :
    s.InitDynamicTexture env = some { s with
      DynamicTexture := none, VideoDriver := none,
      Materials :=
        if m.isDynamic then s.Materials else s.Materials.set k (some (s.CreateDynamic m)),
      Trace := s.Trace ++
        (if m.isDynamic then []
         else [Event.CreateDynamic m.id s.NewObjectId, Event.SetMaterial k s.NewObjectId]) ++
        [Event.GetCameraParameters driver .InitDynamicTexture,
         Event.CreateTransient (env.GetCameraParameters driver).resolution.X
           (env.GetCameraParameters driver).resolution.Y,
         Event.UE_LOG .Error .CreateTextureFailed] } := by
  have hfind := FindVideoMaterial_first s k m h
  cases hdyn : m.isDynamic
  · rw [hdyn] at hfind
    simp only [Bool.false_eq_true, if_false] at hfind
    rw [InitDynamicTexture_found s _ env _ driver hfind hdrv, htex]
    simp [emit, SetMaterial, CreateDynamic]
  · rw [hdyn] at hfind
    simp only [if_true] at hfind
    rw [InitDynamicTexture_found s _ env _ driver hfind hdrv, htex]
    simp

/-- `Initialize` when a slot declares the parameter and `CreateTransient` returns null:
the driver reference is cleared by the binding step; without `bSetSizeAutomatically`
the call returns with the scale untouched; with it the sizer dereferences the cleared
driver reference. -/
theorem Initialize_allocation_failed [Field K] (M : FMath K) (s : UAURVideoScreenBase K)
    (env : Engine K) (driver : Nat) (k : Nat) (m : UMaterialInterface)
    (h : IsFirstVideoSlot s.Materials k m)
    (htex : env.CreateTransient (env.GetCameraParameters driver).resolution.X
      (env.GetCameraParameters driver).resolution.Y = none) :
    (s.bSetSizeAutomatically = true → Initialize M s env (some driver) = none) ∧
    (s.bSetSizeAutomatically = false →
      ∃ e, (e = Event.SetWorld driver ∨ e = Event.UE_LOG .Error .WorldIsNull) ∧
        Initialize M s env (some driver) = some { s with
          DynamicTexture := none, VideoDriver := none,
          Materials :=
            if m.isDynamic then s.Materials
            else s.Materials.set k (some (s.CreateDynamic m)),
          Trace := s.Trace ++ [e] ++
            (if m.isDynamic then []
             else [Event.CreateDynamic m.id s.NewObjectId, Event.SetMaterial k s.NewObjectId]) ++
            [Event.GetCameraParameters driver .InitDynamicTexture,
             Event.CreateTransient (env.GetCameraParameters driver).resolution.X
               (env.GetCameraParameters driver).resolution.Y,
             Event.UE_LOG .Error .CreateTextureFailed,
             Event.UE_LOG .Log .Initialized] }) := by
  obtain ⟨e, he, hinit⟩ := Initialize_some M s env driver
  have hbind := InitDynamicTexture_first_failed
    ({ s with VideoDriver := some driver }.emit [e]) env driver k m h rfl htex
  rw [hbind] at hinit
  constructor
  · intro hauto
    rw [hinit]
    simp only [emit, hauto, if_true]
    rw [InitScreenSize_none M _ env rfl]
  · intro hauto
    refine ⟨e, he, ?_⟩
    rw [hinit]
    simp only [emit, hauto, Bool.false_eq_true, if_false]
    cases m.isDynamic <;> simp [CreateDynamic, NewObjectId]

/-- `Initialize` with a driver, once `InitDynamicTexture` has returned with the driver
still set: the sizer runs exactly when `bSetSizeAutomatically` is set, and apart from
the scale and the trace the state is the one the binding left. -/
theorem Initialize_after_bind [Field K] (M : FMath K) (s : UAURVideoScreenBase K)
    (env : Engine K) (driver : Nat) :
    ∃ e, (e = Event.SetWorld driver ∨ e = Event.UE_LOG .Error .WorldIsNull) ∧
      ∀ s3, ({ s with VideoDriver := some driver }.emit [e]).InitDynamicTexture env = some s3 →
        s3.VideoDriver = some driver →
        ∃ scale : FVector K,
          InitScreenSize M s3 env = some { s3 with
            RelativeScale3D := scale,
            Trace := s3.Trace ++ [Event.GetCameraParameters driver .InitScreenSize,
              Event.UE_LOG .Log .ScreenSize, Event.SetRelativeScale3D] } ∧
          Initialize M s env (some driver) = some { s3 with
            RelativeScale3D := if s3.bSetSizeAutomatically then scale else s3.RelativeScale3D,
            Trace := s3.Trace ++
              (if s3.bSetSizeAutomatically then
                [Event.GetCameraParameters driver .InitScreenSize,
                 Event.UE_LOG .Log .ScreenSize, Event.SetRelativeScale3D]
               else []) ++ [Event.UE_LOG .Log .Initialized] } := by
  obtain ⟨e, he, hinit⟩ := Initialize_some M s env driver
  refine ⟨e, he, ?_⟩
  intro s3 hbind hdrv3
  obtain ⟨scale, hsize⟩ := InitScreenSize_some M s3 env driver hdrv3
  refine ⟨scale, hsize, ?_⟩
  rw [hinit, hbind]
  cases hauto : s3.bSetSizeAutomatically
  · simp [emit, hauto]
  · simp [emit, hsize, hauto]

/-- A successful attach: the search finds a first declaring slot and `CreateTransient`
returns a texture. `Initialize` returns; the driver is stored, the texture kept, the
record populated with the full-frame region; the trace grows by events among which
there is one `CreateTransient` call, at the reported resolution, and no texture write or
enqueue. -/
theorem Initialize_bound [Field K] (M : FMath K) (s : UAURVideoScreenBase K) (env : Engine K)
    (driver : Nat) (texture : UTexture2D) (k : Nat) (m : UMaterialInterface)
    (hfirst : IsFirstVideoSlot s.Materials k m)
    (htex : env.CreateTransient (env.GetCameraParameters driver).resolution.X
      (env.GetCameraParameters driver).resolution.Y = some texture) :
    ∃ (s3 : UAURVideoScreenBase K) (es : List Event),
      Initialize M s env (some driver) = some s3 ∧
      s3.bIsActive = s.bIsActive ∧ s3.bSetSizeAutomatically = s.bSetSizeAutomatically ∧
      s3.VideoDriver = some driver ∧ s3.DynamicTexture = some texture ∧
      s3.TextureUpdateParameters =
        { Texture2DResource := some texture.Resource,
          RegionDefinition :=
            { SrcX := 0, SrcY := 0, DestX := 0, DestY := 0,
              Width := (env.GetCameraParameters driver).resolution.X,
              Height := (env.GetCameraParameters driver).resolution.Y },
          Driver := some driver } ∧
      s3.Trace = s.Trace ++ es ∧ uploads es = 0 ∧ enqueues es = 0 ∧
      es.filter Event.isCreateTransient =
        [Event.CreateTransient (env.GetCameraParameters driver).resolution.X
          (env.GetCameraParameters driver).resolution.Y] := by
  obtain ⟨e, he, hafter⟩ := Initialize_after_bind M s env driver
  have hbind := InitDynamicTexture_first
    ({ s with VideoDriver := some driver }.emit [e]) env driver texture k m hfirst rfl htex
  obtain ⟨scale, -, hinit⟩ := hafter _ hbind rfl
  refine ⟨_, [e] ++
    (if m.isDynamic then []
     else [Event.CreateDynamic m.id s.NewObjectId, Event.SetMaterial k s.NewObjectId]) ++
    [Event.GetCameraParameters driver .InitDynamicTexture,
     Event.CreateTransient (env.GetCameraParameters driver).resolution.X
       (env.GetCameraParameters driver).resolution.Y,
     Event.UpdateResource texture.id,
     Event.SetTextureParameterValue (if m.isDynamic then m.id else s.NewObjectId)
       texture.id] ++
    (if s.bSetSizeAutomatically then
      [Event.GetCameraParameters driver .InitScreenSize,
       Event.UE_LOG .Log .ScreenSize, Event.SetRelativeScale3D]
     else []) ++ [Event.UE_LOG .Log .Initialized], hinit, rfl, rfl, rfl, rfl, rfl,
    by simp [emit, NewObjectId], ?_, ?_, ?_⟩
  · rcases he with he | he <;> subst he <;> cases m.isDynamic <;>
      cases s.bSetSizeAutomatically <;> simp [uploads, Event.isUpload]
  · rcases he with he | he <;> subst he <;> cases m.isDynamic <;>
      cases s.bSetSizeAutomatically <;> simp [enqueues]
  · rcases he with he | he <;> subst he <;> cases m.isDynamic <;>
      cases s.bSetSizeAutomatically <;> simp [Event.isCreateTransient]

/-- The material slots a successful bind leaves: the first declaring slot `k` holds a
dynamic instance whose `VideoTexture` is the new texture; a slot holding another object
than that instance, or nothing, is as before; `k` is still the first declaring slot. -/
theorem boundMaterials_spec (s : UAURVideoScreenBase K) (k : Nat) (m : UMaterialInterface)
    (tid : Nat) (h : IsFirstVideoSlot s.Materials k m) :
    ∃ dyn : UMaterialInterface,
      ((if m.isDynamic then s.Materials
        else s.Materials.set k (some (s.CreateDynamic m))).map (Option.map
        (fun x => if x.id = (if m.isDynamic then m.id else s.NewObjectId)
          then { x with VideoTexture := some tid } else x)))[k]? = some (some dyn) ∧
      dyn.isDynamic = true ∧ dyn.hasVideoTexture = true ∧ dyn.VideoTexture = some tid ∧
      dyn.id = (if m.isDynamic then m.id else s.NewObjectId) ∧
      (∀ (j : Nat) (mj : UMaterialInterface), j ≠ k → s.Materials[j]? = some (some mj) →
        mj.id ≠ (if m.isDynamic then m.id else s.NewObjectId) →
        ((if m.isDynamic then s.Materials
          else s.Materials.set k (some (s.CreateDynamic m))).map (Option.map
          (fun x => if x.id = (if m.isDynamic then m.id else s.NewObjectId)
            then { x with VideoTexture := some tid } else x)))[j]? = some (some mj)) ∧
      (∀ j : Nat, j ≠ k → s.Materials[j]? = some none →
        ((if m.isDynamic then s.Materials
          else s.Materials.set k (some (s.CreateDynamic m))).map (Option.map
          (fun x => if x.id = (if m.isDynamic then m.id else s.NewObjectId)
            then { x with VideoTexture := some tid } else x)))[j]? = some none) ∧
      IsFirstVideoSlot
        ((if m.isDynamic then s.Materials
          else s.Materials.set k (some (s.CreateDynamic m))).map (Option.map
          (fun x => if x.id = (if m.isDynamic then m.id else s.NewObjectId)
            then { x with VideoTexture := some tid } else x))) k dyn := by
  obtain ⟨hk, hm, hleast⟩ := h
  have hklt : k < s.Materials.length := (List.getElem?_eq_some.mp hk).1
  cases hdyn : m.isDynamic
  · have hslot : ((s.Materials.set k (some (s.CreateDynamic m))).map (Option.map
        (fun x => if x.id = s.NewObjectId then { x with VideoTexture := some tid } else x)))[k]?
        = some (some { s.CreateDynamic m with VideoTexture := some tid }) := by
      simp [List.getElem?_set, hklt, CreateDynamic]
    have hother : ∀ (j : Nat) (mj : UMaterialInterface), j ≠ k →
        s.Materials[j]? = some (some mj) →
        ((s.Materials.set k (some (s.CreateDynamic m))).map (Option.map
          (fun x => if x.id = s.NewObjectId then { x with VideoTexture := some tid } else x)))[j]?
          = some (some mj) := by
      intro j mj hj hjm
      have hfresh := NewObjectId_fresh s mj (List.getElem?_mem hjm)
      have hne : mj.id ≠ s.NewObjectId := by omega
      simp [List.getElem?_set, Ne.symm hj, hjm, hne]
    simp only [Bool.false_eq_true, if_false]
    refine ⟨_, hslot, rfl, by simpa [CreateDynamic] using hm, rfl, rfl,
      fun j mj hj hjm _ => hother j mj hj hjm, ?_, hslot, by simpa [CreateDynamic] using hm, ?_⟩
    · intro j hj hjn
      simp [List.getElem?_set, Ne.symm hj, hjn]
    · intro j hjk
      obtain ⟨mj, hjm, hv⟩ := hleast j hjk
      exact ⟨mj, hother j mj (by omega) hjm, hv⟩
  · have hslot : (s.Materials.map (Option.map
        (fun x => if x.id = m.id then { x with VideoTexture := some tid } else x)))[k]?
        = some (some { m with VideoTexture := some tid }) := by
      simp [hk]
    simp only [if_true]
    refine ⟨_, hslot, hdyn, hm, rfl, rfl, ?_, ?_, hslot, hm, ?_⟩
    · intro j mj _ hjm hne
      simp [hjm, hne]
    · intro j _ hjn
      simp [hjn]
    · intro j hjk
      obtain ⟨mj, hjm, hv⟩ := hleast j hjk
      by_cases hid : mj.id = m.id
      · exact ⟨{ mj with VideoTexture := some tid }, by simp [hjm, hid], hv⟩
      · exact ⟨mj, by simp [hjm, hid], hv⟩


/-! ## Ticks and the render command -/

/-- The render command on a populated record: it returns, and issues a texture write
exactly when the top mip is resident, a new frame is available and the frame is not
null; that write goes to mip 0 with the stored region and four bytes per pixel of
width, narrowed to 32 bits. -/
theorem UpdateTextureRenderCommand_populated (p : FTextureUpdateParameters) (r : RenderFrame)
    (resource driver : Nat) (hres : p.Texture2DResource = some resource)
    (hdrv : p.Driver = some driver) :
    ∃ es, UpdateTextureRenderCommand p r = some es ∧
      uploads es = (if r.CurrentFirstMip ≤ 0 ∧ r.NewFrameAvailable = true ∧ r.Frame ≠ none
        then 1 else 0) ∧
      getFrames es = (if r.CurrentFirstMip ≤ 0 ∧ r.NewFrameAvailable = true then 1 else 0) ∧
      errors es = (if r.CurrentFirstMip ≤ 0 ∧ r.NewFrameAvailable = true ∧ r.Frame = none
        then 1 else 0) ∧
      enqueues es = 0 ∧
      (∀ e ∈ es, e.isUpload = true → ∃ frame, e =
        Event.RHIUpdateTexture2D resource 0 p.RegionDefinition
          (4 * p.RegionDefinition.Width % 4294967296) frame) := by
  simp only [UpdateTextureRenderCommand, hres, hdrv]
  by_cases hmip : r.CurrentFirstMip ≤ 0
  · cases hnew : r.NewFrameAvailable
    · refine ⟨[Event.IsNewFrameAvailable driver], by simp [hmip], ?_, ?_, ?_, ?_, ?_⟩ <;>
        simp [uploads, getFrames, errors, enqueues, Event.isUpload, Event.isGetFrame,
          Event.isError]
    · cases hframe : r.Frame with
      | none =>
        refine ⟨[Event.IsNewFrameAvailable driver, Event.GetFrame driver,
          Event.UE_LOG .Error .NullFrame], by simp [hmip], ?_, ?_, ?_, ?_, ?_⟩ <;>
          simp [uploads, getFrames, errors, enqueues, Event.isUpload, Event.isGetFrame,
            Event.isError, hmip]
      | some frame =>
        refine ⟨[Event.IsNewFrameAvailable driver, Event.GetFrame driver,
          Event.RHIUpdateTexture2D resource 0 p.RegionDefinition
            (4 * p.RegionDefinition.Width % 4294967296) frame], by simp [hmip], ?_, ?_, ?_, ?_, ?_⟩ <;>
          simp [uploads, getFrames, errors, enqueues, Event.isUpload, Event.isGetFrame,
            Event.isError, hmip]
  · refine ⟨[], by simp [hmip], ?_, ?_, ?_, ?_, ?_⟩ <;>
      simp [uploads, getFrames, errors, enqueues, hmip]

/-- A tick of a component that is inactive or has no driver enqueues nothing, and the
frame leaves the state as it is. -/
theorem Frame_idle (s : UAURVideoScreenBase K) (r : RenderFrame)
    (h : s.bIsActive = false ∨ s.VideoDriver = none) :
    s.TickComponent = (s, []) ∧ s.Frame r = some s := by
  have htick : s.TickComponent = (s, []) := by
    rcases h with h | h <;> simp [TickComponent, h]
  exact ⟨htick, by simp [Frame, htick, RenderThread]⟩

/-- A tick of an active component with a driver enqueues one render command, which the
render thread runs against the component's record. -/
theorem Frame_active (s : UAURVideoScreenBase K) (r : RenderFrame) (driver : Nat)
    (hact : s.bIsActive = true) (hdrv : s.VideoDriver = some driver) :
    s.TickComponent = (s.emit [Event.EnqueueRenderCommand],
        [RenderCommand.UpdateTextureRenderCommand]) ∧
      s.Frame r =
        match UpdateTextureRenderCommand s.TextureUpdateParameters r with
        | none => none
        | some es => some (s.emit (Event.EnqueueRenderCommand :: es)) := by
  have htick : s.TickComponent = (s.emit [Event.EnqueueRenderCommand],
      [RenderCommand.UpdateTextureRenderCommand]) := by
    simp [TickComponent, hact, hdrv, UpdateDynamicTexture]
  refine ⟨htick, ?_⟩
  simp only [Frame, htick, RenderThread, emit]
  cases UpdateTextureRenderCommand s.TextureUpdateParameters r with
  | none => rfl
  | some es => simp

/-- Frames of a bound component: every frame returns, only the trace grows, and the
counts of the events are those of the frames. -/
theorem RunFrames_bound (rs : List RenderFrame) :
    ∀ (s : UAURVideoScreenBase K) (driver resource pdriver : Nat),
      s.bIsActive = true → s.VideoDriver = some driver →
      s.TextureUpdateParameters.Texture2DResource = some resource →
      s.TextureUpdateParameters.Driver = some pdriver →
      ∃ es, s.RunFrames rs = some (s.emit es) ∧
        uploads es = rs.countP (fun r => decide (r.CurrentFirstMip ≤ 0) &&
          r.NewFrameAvailable && r.Frame.isSome) ∧
        getFrames es = rs.countP (fun r => decide (r.CurrentFirstMip ≤ 0) &&
          r.NewFrameAvailable) ∧
        errors es = rs.countP (fun r => decide (r.CurrentFirstMip ≤ 0) &&
          r.NewFrameAvailable && r.Frame.isNone) ∧
        enqueues es = rs.length ∧
        (∀ e ∈ es, e.isUpload = true → ∃ frame, e =
          Event.RHIUpdateTexture2D resource 0 s.TextureUpdateParameters.RegionDefinition
            (4 * s.TextureUpdateParameters.RegionDefinition.Width % 4294967296) frame) := by
  induction rs with
  | nil =>
    intro s driver resource pdriver _ _ _ _
    exact ⟨[], by simp [RunFrames, emit], by simp [uploads], by simp [getFrames],
      by simp [errors], by simp [enqueues], by simp⟩
  | cons r rs ih =>
    intro s driver resource pdriver hact hdrv hres hpdrv
    obtain ⟨es, hcmd, hup, hget, herr, henq, hall⟩ :=
      UpdateTextureRenderCommand_populated s.TextureUpdateParameters r resource pdriver hres hpdrv
    have hframe := (Frame_active s r driver hact hdrv).2
    rw [hcmd] at hframe
    obtain ⟨es2, hrun, hup2, hget2, herr2, henq2, hall2⟩ :=
      ih (s.emit (Event.EnqueueRenderCommand :: es)) driver resource pdriver hact hdrv hres hpdrv
    refine ⟨(Event.EnqueueRenderCommand :: es) ++ es2, ?_, ?_, ?_, ?_, ?_, ?_⟩
    · simp only [RunFrames, hframe, hrun]
      simp [emit]
    · simp only [uploads] at hup hup2 ⊢
      rw [List.countP_append, List.countP_cons, List.countP_cons, hup, hup2]
      by_cases hmip : r.CurrentFirstMip ≤ 0 <;> cases r.NewFrameAvailable <;>
        cases r.Frame <;> (simp [hmip, Event.isUpload]; try omega)
    · simp only [getFrames] at hget hget2 ⊢
      rw [List.countP_append, List.countP_cons, List.countP_cons, hget, hget2]
      by_cases hmip : r.CurrentFirstMip ≤ 0 <;> cases r.NewFrameAvailable <;>
        (simp [hmip, Event.isGetFrame]; try omega)
    · simp only [errors] at herr herr2 ⊢
      rw [List.countP_append, List.countP_cons, List.countP_cons, herr, herr2]
      by_cases hmip : r.CurrentFirstMip ≤ 0 <;> cases r.NewFrameAvailable <;>
        cases r.Frame <;> (simp [hmip, Event.isError]; try omega)
    · simp only [enqueues] at henq henq2 ⊢
      rw [List.count_append, List.count_cons, henq, henq2]
      simp
      omega
    · intro e he hup
      rcases List.mem_append.mp he with h1 | h2
      · rcases List.mem_cons.mp h1 with h0 | h1
        · subst h0
          simp [Event.isUpload] at hup
        · exact hall e h1 hup
      · exact hall2 e h2 hup

/-- Frames of a component that is inactive or has no driver change nothing. -/
theorem RunFrames_idle (rs : List RenderFrame) (s : UAURVideoScreenBase K)
    (h : s.bIsActive = false ∨ s.VideoDriver = none) : s.RunFrames rs = some s := by
  induction rs with
  | nil => rfl
  | cons r rs ih => simp only [RunFrames, (Frame_idle s r h).2, ih]

end UAURVideoScreenBase

/-! ## Screen sizing over the reals -/

/-- The sizer at distance 50 with a field of view of 90 degrees and aspect 16/9 sets the
scale `(1, 0.5625, 1)`. -/
theorem InitScreenSize_S2 (s : UAURVideoScreenBase ℝ) (env : Engine ℝ) (driver : Nat)
    (hdrv : s.VideoDriver = some driver)
    (hloc : s.RelativeLocation = { X := 50, Y := 0, Z := 0 })
    (hfov : (env.GetCameraParameters driver).fov = 90)
    (hasp : (env.GetCameraParameters driver).aspect_ratio = 16 / 9) :
    ∃ s1, UAURVideoScreenBase.InitScreenSize (FMath.mk Real.tan Real.sqrt Real.pi) s env
        = some s1 ∧
      s1.RelativeScale3D.X = 1 ∧ s1.RelativeScale3D.Y = 0.5625 ∧ s1.RelativeScale3D.Z = 1 := by
  have hsize : Real.sqrt ((50 : ℝ) * 50 + 0 * 0 + 0 * 0) = 50 := by
    rw [show (50 : ℝ) * 50 + 0 * 0 + 0 * 0 = 50 ^ 2 by norm_num]
    exact Real.sqrt_sq (by norm_num)
  have htan : Real.tan ((0.5 : ℝ) * 90 * (Real.pi / 180)) = 1 := by
    rw [show (0.5 : ℝ) * 90 * (Real.pi / 180) = Real.pi / 4 by norm_num; ring]
    exact Real.tan_pi_div_four
  simp only [UAURVideoScreenBase.InitScreenSize, hdrv, FVector.Size, hloc, hfov, hasp,
    FMath.DegreesToRadians, hsize, htan, UAURVideoScreenBase.emit]
  refine ⟨_, rfl, ?_, ?_, rfl⟩ <;> norm_num

/-- C1. Screen sizing, read over the reals: when the driver is bound, the placement
distance `d` is positive, `0 < fov < 180` and `aspect > 0`, `InitScreenSize` returns and
sets the local scale to `(width/100, height/100, 1)` with
`width = 2*d*tan(fov*π/360)` and `height = width/aspect`; hence `scale.X*100` is that
width and `scale.Y/scale.X = 1/aspect`; and an engine that reports another resolution
with the same field of view and aspect gives the same scale. -/
theorem C1_InitScreenSize_scale (s : UAURVideoScreenBase ℝ) (env : Engine ℝ) (driver : Nat)
    (hdrv : s.VideoDriver = some driver)
    (hd : 0 < FVector.Size (FMath.mk Real.tan Real.sqrt Real.pi) s.RelativeLocation)
    (hfov0 : 0 < (env.GetCameraParameters driver).fov)
    (hfov : (env.GetCameraParameters driver).fov < 180)
    (hasp : 0 < (env.GetCameraParameters driver).aspect_ratio) :
    ∃ s1, UAURVideoScreenBase.InitScreenSize (FMath.mk Real.tan Real.sqrt Real.pi) s env
        = some s1 ∧
      s1.RelativeScale3D.X =
        2 * FVector.Size (FMath.mk Real.tan Real.sqrt Real.pi) s.RelativeLocation
          * Real.tan ((env.GetCameraParameters driver).fov * Real.pi / 360) / 100 ∧
      s1.RelativeScale3D.Y =
        2 * FVector.Size (FMath.mk Real.tan Real.sqrt Real.pi) s.RelativeLocation
          * Real.tan ((env.GetCameraParameters driver).fov * Real.pi / 360)
          / (env.GetCameraParameters driver).aspect_ratio / 100 ∧
      s1.RelativeScale3D.Z = 1 ∧
      s1.RelativeScale3D.X * 100 =
        2 * FVector.Size (FMath.mk Real.tan Real.sqrt Real.pi) s.RelativeLocation
          * Real.tan ((env.GetCameraParameters driver).fov * Real.pi / 360) ∧
      s1.RelativeScale3D.Y / s1.RelativeScale3D.X
        = 1 / (env.GetCameraParameters driver).aspect_ratio ∧
      ∀ env2 : Engine ℝ,
        (env2.GetCameraParameters driver).fov = (env.GetCameraParameters driver).fov →
        (env2.GetCameraParameters driver).aspect_ratio
          = (env.GetCameraParameters driver).aspect_ratio →
        ∃ s2, UAURVideoScreenBase.InitScreenSize (FMath.mk Real.tan Real.sqrt Real.pi) s env2
            = some s2 ∧
          s2.RelativeScale3D.X = s1.RelativeScale3D.X ∧
          s2.RelativeScale3D.Y = s1.RelativeScale3D.Y ∧
          s2.RelativeScale3D.Z = s1.RelativeScale3D.Z := by
  have hangle : (0.5 : ℝ) * (env.GetCameraParameters driver).fov * (Real.pi / 180)
      = (env.GetCameraParameters driver).fov * Real.pi / 360 := by
    norm_num
    ring
  have hpi := Real.pi_pos
  have htan : 0 < Real.tan ((env.GetCameraParameters driver).fov * Real.pi / 360) := by
    apply Real.tan_pos_of_pos_of_lt_pi_div_two
    · positivity
    · nlinarith
  simp only [UAURVideoScreenBase.InitScreenSize, hdrv]
  refine ⟨_, rfl, ?_, ?_, rfl, ?_, ?_, ?_⟩
  · simp only [UAURVideoScreenBase.emit, FMath.DegreesToRadians, hangle]
    ring
  · simp only [UAURVideoScreenBase.emit, FMath.DegreesToRadians, hangle]
    ring
  · simp only [UAURVideoScreenBase.emit, FMath.DegreesToRadians, hangle]
    ring
  · simp only [UAURVideoScreenBase.emit, FMath.DegreesToRadians, hangle]
    field_simp
    ring
  · intro env2 h1 h2
    refine ⟨_, rfl, ?_, ?_, rfl⟩
    · simp only [UAURVideoScreenBase.emit, h1]
    · simp only [UAURVideoScreenBase.emit, h1, h2]

/-- Scenario S2 for C1: the driver reports `(1920, 1080, 90°, 16/9)` and the screen is
placed at distance 50; the sizer sets the scale `(1, 0.5625, 1)`, that is width 100 and
height 56.25. -/
theorem C1_S2_witness :
    ∃ s1, UAURVideoScreenBase.InitScreenSize (FMath.mk Real.tan Real.sqrt Real.pi)
        ({ freshScreen true [] (50 : ℝ) with VideoDriver := some 1 })
        (scenarioEngine 1920 1080 (90 : ℝ) (16 / 9) none) = some s1 ∧
      s1.RelativeScale3D.X = 1 ∧ s1.RelativeScale3D.Y = 0.5625 ∧ s1.RelativeScale3D.Z = 1 ∧
      s1.RelativeScale3D.X * 100 = 100 ∧ s1.RelativeScale3D.Y * 100 = 56.25 := by
  have hsize : FVector.Size (FMath.mk Real.tan Real.sqrt Real.pi)
      ({ freshScreen true [] (50 : ℝ) with VideoDriver := some 1 }).RelativeLocation = 50 := by
    simp only [FVector.Size, freshScreen]
    rw [show (50 : ℝ) * 50 + 0 * 0 + 0 * 0 = 50 ^ 2 by norm_num]
    exact Real.sqrt_sq (by norm_num)
  have htan : Real.tan ((90 : ℝ) * Real.pi / 360) = 1 := by
    rw [show (90 : ℝ) * Real.pi / 360 = Real.pi / 4 by ring]
    exact Real.tan_pi_div_four
  obtain ⟨s1, h1, hx, hy, hz, -, -, -⟩ :=
    C1_InitScreenSize_scale ({ freshScreen true [] (50 : ℝ) with VideoDriver := some 1 })
      (scenarioEngine 1920 1080 (90 : ℝ) (16 / 9) none) 1 rfl
      (by rw [hsize]; norm_num) (by simp [scenarioEngine]) (by simp [scenarioEngine]; norm_num)
      (by simp [scenarioEngine])
  rw [hsize] at hx hy
  simp only [scenarioEngine, htan] at hx hy
  refine ⟨s1, h1, ?_, ?_, hz, ?_, ?_⟩
  · rw [hx]; norm_num
  · rw [hy]; norm_num
  · rw [hx]; norm_num
  · rw [hy]; norm_num

/-! ## Uploads -/

/-- C2. Upload count over ticks: after a successful attach of an active component (the
material search finds a first declaring slot and the texture is allocated), any
finite sequence of frames in which the top mip is resident and the driver never returns
a null frame runs to the end; attach itself writes nothing; the number of texture
writes is the number of frames on which `IsNewFrameAvailable` is true; and frame by
frame, a frame with a new frame available adds exactly one write and one `GetFrame`
call, a frame without adds neither. -/
theorem C2_uploads_equal_new_frames {K : Type} [Field K] (M : FMath K)
    (s0 : UAURVideoScreenBase K) (env : Engine K) (driver : Nat) (texture : UTexture2D)
    (rs : List RenderFrame) (k : Nat) (m : UMaterialInterface)
    (hact : s0.bIsActive = true)
    (hfirst : IsFirstVideoSlot s0.Materials k m)
    (htex : env.CreateTransient (env.GetCameraParameters driver).resolution.X
      (env.GetCameraParameters driver).resolution.Y = some texture)
    (hmip : ∀ r ∈ rs, r.CurrentFirstMip ≤ 0)
    (hframe : ∀ r ∈ rs, r.NewFrameAvailable = true → r.Frame ≠ none) :
    ∃ s1 s2, UAURVideoScreenBase.Initialize M s0 env (some driver) = some s1 ∧
      s1.RunFrames rs = some s2 ∧
      uploads s1.Trace = uploads s0.Trace ∧
      uploads s2.Trace = uploads s1.Trace + rs.countP (fun r => r.NewFrameAvailable) ∧
      ∀ (pre : List RenderFrame) (r : RenderFrame) (post : List RenderFrame),
        rs = pre ++ r :: post →
        ∃ sa sb, s1.RunFrames pre = some sa ∧ sa.Frame r = some sb ∧
          uploads sb.Trace = uploads sa.Trace + (if r.NewFrameAvailable then 1 else 0) ∧
          getFrames sb.Trace = getFrames sa.Trace + (if r.NewFrameAvailable then 1 else 0) := by
  obtain ⟨s1, es, hinit, hact1, -, hdrv1, -, hparams, htrace, hup, -, -⟩ :=
    UAURVideoScreenBase.Initialize_bound M s0 env driver texture k m hfirst htex
  have hres1 : s1.TextureUpdateParameters.Texture2DResource = some texture.Resource := by
    rw [hparams]
  have hpdrv1 : s1.TextureUpdateParameters.Driver = some driver := by rw [hparams]
  rw [hact] at hact1
  obtain ⟨es2, hrun, hup2, -, -, -, -⟩ :=
    UAURVideoScreenBase.RunFrames_bound rs s1 driver texture.Resource driver hact1 hdrv1 hres1
      hpdrv1
  refine ⟨s1, s1.emit es2, hinit, hrun, ?_, ?_, ?_⟩
  · rw [htrace]
    simp only [uploads, List.countP_append] at hup ⊢
    omega
  · simp only [UAURVideoScreenBase.emit, uploads, List.countP_append] at hup2 ⊢
    rw [hup2]
    congr 1
    apply List.countP_congr
    intro r hr
    have h1 := hmip r hr
    have h2 := hframe r hr
    cases hnew : r.NewFrameAvailable
    · simp
    · have h3 : r.Frame.isSome = true := by
        cases hf : r.Frame with
        | none => exact absurd hf (h2 hnew)
        | some f => rfl
      simp [h1, h3]
  · intro pre r post hsplit
    obtain ⟨esa, hruna, -, -, -, -, -⟩ :=
      UAURVideoScreenBase.RunFrames_bound pre s1 driver texture.Resource driver hact1 hdrv1
        hres1 hpdrv1
    have hr : r ∈ rs := by rw [hsplit]; simp
    obtain ⟨esr, hcmd, hupr, hgetr, -, -, -⟩ :=
      UAURVideoScreenBase.UpdateTextureRenderCommand_populated
        (s1.emit esa).TextureUpdateParameters r texture.Resource driver hres1 hpdrv1
    have hfr := (UAURVideoScreenBase.Frame_active (s1.emit esa) r driver hact1 hdrv1).2
    rw [hcmd] at hfr
    refine ⟨s1.emit esa, _, hruna, hfr, ?_, ?_⟩
    · simp only [UAURVideoScreenBase.emit, uploads, List.countP_append, List.countP_cons]
        at hupr ⊢
      rw [hupr]
      have h1 := hmip r hr
      have h2 := hframe r hr
      cases hnew : r.NewFrameAvailable
      · simp [Event.isUpload]
      · simp [Event.isUpload, h1, h2 hnew]
    · simp only [UAURVideoScreenBase.emit, getFrames, List.countP_append, List.countP_cons]
        at hgetr ⊢
      rw [hgetr]
      have h1 := hmip r hr
      cases hnew : r.NewFrameAvailable
      · simp [Event.isGetFrame]
      · simp [Event.isGetFrame, h1]

/-- Scenario S3 for C2: a fresh screen is attached to a 640x480 driver and runs ten
frames on which a new frame is available alternately; exactly five texture writes
occur. -/
theorem C2_S3_witness :
    ∃ s1 s2,
      UAURVideoScreenBase.Initialize (FMath.mk Real.tan Real.sqrt Real.pi)
        (freshScreen true [some (plainMaterial 1 true)] (100 : ℝ))
        (scenarioEngine 640 480 (60 : ℝ) (4 / 3) (some { id := 10, Resource := 11 }))
        (some 7) = some s1 ∧
      s1.RunFrames (alternatingFrames 10) = some s2 ∧
      (alternatingFrames 10).map (fun r => r.NewFrameAvailable)
        = [true, false, true, false, true, false, true, false, true, false] ∧
      uploads s2.Trace = 5 := by
  obtain ⟨s1, s2, h1, h2, h3, h4, -⟩ :=
    C2_uploads_equal_new_frames (FMath.mk Real.tan Real.sqrt Real.pi)
      (freshScreen true [some (plainMaterial 1 true)] (100 : ℝ))
      (scenarioEngine 640 480 (60 : ℝ) (4 / 3) (some { id := 10, Resource := 11 }))
      7 { id := 10, Resource := 11 } (alternatingFrames 10) 0 (plainMaterial 1 true) rfl
      ⟨rfl, rfl, fun j hj => absurd hj (Nat.not_lt_zero j)⟩ rfl
      (by intro r hr; simp only [alternatingFrames, List.mem_map] at hr
          obtain ⟨i, -, rfl⟩ := hr; exact le_refl _)
      (by intro r hr; simp only [alternatingFrames, List.mem_map] at hr
          obtain ⟨i, -, rfl⟩ := hr; intro _; simp)
  refine ⟨s1, s2, h1, h2, by decide, ?_⟩
  rw [h4, h3]
  have hcount : (alternatingFrames 10).countP (fun r => r.NewFrameAvailable) = 5 := by decide
  rw [hcount]
  rfl

/-- C3, amended. Full-frame coverage: after a successful bind against a driver
reporting resolution `(w, h)`, `CreateTransient` was called once, with `w` and `h`, the
component keeps the texture it returned, and the region stored in the record has both
origins `(0, 0)`, width `w` and height `h`; in every later sequence of frames the record
is not changed and every texture write targets mip 0 of the texture's resource, passes
the stored region as it is, and passes as source pitch `4 * w` narrowed to 32 bits, which
is `4 * w` whenever `w < 2^30`. -/
theorem C3_full_frame_region {K : Type} [Field K] (M : FMath K)
    (s0 : UAURVideoScreenBase K) (env : Engine K) (driver : Nat) (texture : UTexture2D)
    (k : Nat) (m : UMaterialInterface)
    (hfirst : IsFirstVideoSlot s0.Materials k m)
    (htex : env.CreateTransient (env.GetCameraParameters driver).resolution.X
      (env.GetCameraParameters driver).resolution.Y = some texture) :
    ∃ s1 es, UAURVideoScreenBase.Initialize M s0 env (some driver) = some s1 ∧
      s1.Trace = s0.Trace ++ es ∧
      es.filter Event.isCreateTransient =
        [Event.CreateTransient (env.GetCameraParameters driver).resolution.X
          (env.GetCameraParameters driver).resolution.Y] ∧
      s1.DynamicTexture = some texture ∧
      s1.TextureUpdateParameters.RegionDefinition.SrcX = 0 ∧
      s1.TextureUpdateParameters.RegionDefinition.SrcY = 0 ∧
      s1.TextureUpdateParameters.RegionDefinition.DestX = 0 ∧
      s1.TextureUpdateParameters.RegionDefinition.DestY = 0 ∧
      s1.TextureUpdateParameters.RegionDefinition.Width
        = (env.GetCameraParameters driver).resolution.X ∧
      s1.TextureUpdateParameters.RegionDefinition.Height
        = (env.GetCameraParameters driver).resolution.Y ∧
      ∀ rs : List RenderFrame, ∃ s2 es2, s1.RunFrames rs = some s2 ∧
        s2.Trace = s1.Trace ++ es2 ∧
        s2.TextureUpdateParameters = s1.TextureUpdateParameters ∧
        (∀ e ∈ es2, e.isUpload = true → ∃ frame, e =
          Event.RHIUpdateTexture2D texture.Resource 0
            s1.TextureUpdateParameters.RegionDefinition
            (4 * (env.GetCameraParameters driver).resolution.X % 4294967296) frame) ∧
        ((env.GetCameraParameters driver).resolution.X < 1073741824 →
          ∀ e ∈ es2, e.isUpload = true → ∃ frame, e =
            Event.RHIUpdateTexture2D texture.Resource 0
              s1.TextureUpdateParameters.RegionDefinition
              (4 * (env.GetCameraParameters driver).resolution.X) frame) := by
  obtain ⟨s1, es, hinit, -, -, hdrv1, htexture, hparams, htrace, -, -, hcreate⟩ :=
    UAURVideoScreenBase.Initialize_bound M s0 env driver texture k m hfirst htex
  have hres1 : s1.TextureUpdateParameters.Texture2DResource = some texture.Resource := by
    rw [hparams]
  have hpdrv1 : s1.TextureUpdateParameters.Driver = some driver := by rw [hparams]
  have hwidth : s1.TextureUpdateParameters.RegionDefinition.Width
      = (env.GetCameraParameters driver).resolution.X := by rw [hparams]
  refine ⟨s1, es, hinit, htrace, hcreate, htexture, by rw [hparams], by rw [hparams],
    by rw [hparams], by rw [hparams], hwidth, by rw [hparams], ?_⟩
  intro rs
  cases hact : s1.bIsActive
  · exact ⟨s1, [], UAURVideoScreenBase.RunFrames_idle rs s1 (Or.inl hact), by simp, rfl,
      by simp, by simp⟩
  · obtain ⟨es2, hrun, -, -, -, -, hall⟩ :=
      UAURVideoScreenBase.RunFrames_bound rs s1 driver texture.Resource driver hact hdrv1 hres1
        hpdrv1
    rw [hwidth] at hall
    refine ⟨s1.emit es2, es2, hrun, rfl, rfl, hall, ?_⟩
    intro hw e he hup
    obtain ⟨frame, hframe⟩ := hall e he hup
    rw [Nat.mod_eq_of_lt (by omega)] at hframe
    exact ⟨frame, hframe⟩

/-- Scenario for C3: a fresh screen attached to a 640x480 driver gets the region
`(0, 0, 0, 0, 640, 480)`, and the one write of a frame with a new video frame passes
that region, mip 0 and pitch 2560. -/
theorem C3_witness :
    ∃ s1 s2 es2,
      UAURVideoScreenBase.Initialize (FMath.mk Real.tan Real.sqrt Real.pi)
        (freshScreen true [some (plainMaterial 1 true)] (100 : ℝ))
        (scenarioEngine 640 480 (60 : ℝ) (4 / 3) (some { id := 10, Resource := 11 }))
        (some 7) = some s1 ∧
      s1.TextureUpdateParameters.RegionDefinition =
        { SrcX := 0, SrcY := 0, DestX := 0, DestY := 0, Width := 640, Height := 480 } ∧
      s1.RunFrames [{ CurrentFirstMip := 0, NewFrameAvailable := true, Frame := some 5 }]
        = some s2 ∧
      s2.Trace = s1.Trace ++ es2 ∧
      ∀ e ∈ es2, e.isUpload = true → ∃ frame, e = Event.RHIUpdateTexture2D 11 0
        { SrcX := 0, SrcY := 0, DestX := 0, DestY := 0, Width := 640, Height := 480 } 2560
        frame := by
  obtain ⟨s1, es, h1, htr, -, -, hsx, hsy, hdx, hdy, hw, hh, hrun⟩ :=
    C3_full_frame_region (FMath.mk Real.tan Real.sqrt Real.pi)
      (freshScreen true [some (plainMaterial 1 true)] (100 : ℝ))
      (scenarioEngine 640 480 (60 : ℝ) (4 / 3) (some { id := 10, Resource := 11 }))
      7 { id := 10, Resource := 11 } 0 (plainMaterial 1 true)
      ⟨rfl, rfl, fun j hj => absurd hj (Nat.not_lt_zero j)⟩ rfl
  have hregion : s1.TextureUpdateParameters.RegionDefinition =
      { SrcX := 0, SrcY := 0, DestX := 0, DestY := 0, Width := 640, Height := 480 } := by
    cases hr : s1.TextureUpdateParameters.RegionDefinition
    simp only [hr] at hsx hsy hdx hdy hw hh
    simp only [scenarioEngine] at hw hh
    simp [hsx, hsy, hdx, hdy, hw, hh]
  obtain ⟨s2, es2, h2, htr2, -, -, hall⟩ :=
    hrun [{ CurrentFirstMip := 0, NewFrameAvailable := true, Frame := some 5 }]
  have hall2 := hall (by simp [scenarioEngine])
  rw [hregion] at hall2
  exact ⟨s1, s2, es2, h1, hregion, h2, htr2, hall2⟩

/-- C3, counterexample. A fresh screen is attached to a driver reporting resolution
`(1073741824, 1)`, `CreateTransient` returning a texture: the stored region has width
`2^30`, and the texture write of the next frame with a new video frame passes source
pitch 0, not `4 * 2^30`. -/
theorem C3_counterexample :
    ∃ s1 s2,
      UAURVideoScreenBase.Initialize (FMath.mk Real.tan Real.sqrt Real.pi)
        (freshScreen true [some (plainMaterial 1 true)] (100 : ℝ))
        (scenarioEngine 1073741824 1 (60 : ℝ) (4 / 3) (some { id := 10, Resource := 11 }))
        (some 7) = some s1 ∧
      s1.TextureUpdateParameters.RegionDefinition.Width = 1073741824 ∧
      s1.Frame { CurrentFirstMip := 0, NewFrameAvailable := true, Frame := some 5 }
        = some s2 ∧
      s2.Trace = s1.Trace ++ [Event.EnqueueRenderCommand, Event.IsNewFrameAvailable 7,
        Event.GetFrame 7,
        Event.RHIUpdateTexture2D 11 0
          { SrcX := 0, SrcY := 0, DestX := 0, DestY := 0, Width := 1073741824, Height := 1 }
          0 5] ∧
      (0 : Nat) ≠ 4 * 1073741824 := by
  obtain ⟨s1, es, hinit, hact1, -, hdrv1, -, hparams, -, -, -, -⟩ :=
    UAURVideoScreenBase.Initialize_bound (FMath.mk Real.tan Real.sqrt Real.pi)
      (freshScreen true [some (plainMaterial 1 true)] (100 : ℝ))
      (scenarioEngine 1073741824 1 (60 : ℝ) (4 / 3) (some { id := 10, Resource := 11 }))
      7 { id := 10, Resource := 11 } 0 (plainMaterial 1 true)
      ⟨rfl, rfl, fun j hj => absurd hj (Nat.not_lt_zero j)⟩ rfl
  have hfr := (UAURVideoScreenBase.Frame_active s1
    { CurrentFirstMip := 0, NewFrameAvailable := true, Frame := some 5 } 7 hact1 hdrv1).2
  simp only [scenarioEngine] at hparams
  rw [hparams] at hfr
  simp only [UAURVideoScreenBase.UpdateTextureRenderCommand, le_refl, if_true] at hfr
  norm_num at hfr
  exact ⟨s1, _, hinit, by rw [hparams], hfr, rfl, by norm_num⟩

/-- C4. Null frame in the upload command: when the record is populated, the top mip is
resident, `IsNewFrameAvailable` is true and `GetFrame` returns null, the command asks
for the frame, logs one error and writes nothing; the frame of an active component then
adds no texture write and exactly one error-level log entry, leaves the driver
reference, the record and the active flag as they were, and the next tick enqueues the
command again. -/
theorem C4_null_frame_logs_error {K : Type} (s : UAURVideoScreenBase K) (r : RenderFrame)
    (driver resource pdriver : Nat)
    (hact : s.bIsActive = true) (hdrv : s.VideoDriver = some driver)
    (hres : s.TextureUpdateParameters.Texture2DResource = some resource)
    (hpdrv : s.TextureUpdateParameters.Driver = some pdriver)
    (hmip : r.CurrentFirstMip ≤ 0) (hnew : r.NewFrameAvailable = true)
    (hnull : r.Frame = none) :
    UAURVideoScreenBase.UpdateTextureRenderCommand s.TextureUpdateParameters r =
      some [Event.IsNewFrameAvailable pdriver, Event.GetFrame pdriver,
        Event.UE_LOG .Error .NullFrame] ∧
    ∃ s1, s.Frame r = some s1 ∧
      uploads s1.Trace = uploads s.Trace ∧
      errors s1.Trace = errors s.Trace + 1 ∧
      s1.VideoDriver = s.VideoDriver ∧
      s1.TextureUpdateParameters = s.TextureUpdateParameters ∧
      s1.bIsActive = s.bIsActive ∧
      s1.TickComponent.2 = [RenderCommand.UpdateTextureRenderCommand] := by
  have hcmd : UAURVideoScreenBase.UpdateTextureRenderCommand s.TextureUpdateParameters r =
      some [Event.IsNewFrameAvailable pdriver, Event.GetFrame pdriver,
        Event.UE_LOG .Error .NullFrame] := by
    simp [UAURVideoScreenBase.UpdateTextureRenderCommand, hres, hpdrv, hmip, hnew, hnull]
  have hfr := (UAURVideoScreenBase.Frame_active s r driver hact hdrv).2
  rw [hcmd] at hfr
  refine ⟨hcmd, _, hfr, ?_, ?_, rfl, rfl, rfl, ?_⟩
  · simp [UAURVideoScreenBase.emit, uploads, Event.isUpload]
  · simp [UAURVideoScreenBase.emit, errors, Event.isError]
  · have hact1 : (s.emit [Event.EnqueueRenderCommand, Event.IsNewFrameAvailable pdriver,
        Event.GetFrame pdriver, Event.UE_LOG .Error .NullFrame]).bIsActive = true := hact
    have hdrv1 : (s.emit [Event.EnqueueRenderCommand, Event.IsNewFrameAvailable pdriver,
        Event.GetFrame pdriver, Event.UE_LOG .Error .NullFrame]).VideoDriver = some driver := hdrv
    rw [(UAURVideoScreenBase.Frame_active _ r driver hact1 hdrv1).1]

/-- Scenario S4 for C4: one frame of a bound component on which a new frame is
announced and the driver returns null gives no texture write and one error entry. -/
theorem C4_S4_witness :
    ∃ s1, (boundScreen (100 : ℚ)).Frame
        { CurrentFirstMip := 0, NewFrameAvailable := true, Frame := none } = some s1 ∧
      uploads s1.Trace = 0 ∧ errors s1.Trace = 1 ∧
      s1.VideoDriver = some 7 ∧
      s1.TextureUpdateParameters = (boundScreen (100 : ℚ)).TextureUpdateParameters := by
  obtain ⟨-, s1, h1, h2, h3, h4, h5, -, -⟩ :=
    C4_null_frame_logs_error (boundScreen (100 : ℚ))
      { CurrentFirstMip := 0, NewFrameAvailable := true, Frame := none } 7 11 7
      rfl rfl rfl rfl (le_refl _) rfl rfl
  exact ⟨s1, h1, h2, h3, h4, h5⟩

/-! ## Attach failures -/

/-- C10. Attach with a null driver: `Initialize(nullptr)` returns, appends exactly one
entry to the trace, an error-level log entry, and changes no member: driver reference,
material slots, texture, record, scale and flags are as before. On a component without
a driver the driver reference therefore stays null, a tick enqueues nothing, and any
sequence of frames leaves the state, and so the trace, as it is. -/
theorem C10_null_driver {K : Type} [Field K] (M : FMath K) (s : UAURVideoScreenBase K)
    (env : Engine K) :
    ∃ s1, UAURVideoScreenBase.Initialize M s env none = some s1 ∧
      s1.Trace = s.Trace ++ [Event.UE_LOG .Error .DriverIsNull] ∧
      errors s1.Trace = errors s.Trace + 1 ∧
      uploads s1.Trace = uploads s.Trace ∧ enqueues s1.Trace = enqueues s.Trace ∧
      s1.VideoDriver = s.VideoDriver ∧ s1.Materials = s.Materials ∧
      s1.DynamicTexture = s.DynamicTexture ∧
      s1.TextureUpdateParameters = s.TextureUpdateParameters ∧
      s1.RelativeScale3D = s.RelativeScale3D ∧ s1.RelativeLocation = s.RelativeLocation ∧
      s1.bIsActive = s.bIsActive ∧ s1.bSetSizeAutomatically = s.bSetSizeAutomatically ∧
      (s.VideoDriver = none →
        s1.VideoDriver = none ∧ s1.TickComponent = (s1, []) ∧
        ∀ rs : List RenderFrame, s1.RunFrames rs = some s1) := by
  refine ⟨s.emit [Event.UE_LOG .Error .DriverIsNull], rfl, rfl, ?_, ?_, ?_, rfl, rfl, rfl, rfl,
    rfl, rfl, rfl, rfl, ?_⟩
  · simp [UAURVideoScreenBase.emit, errors, Event.isError]
  · simp [UAURVideoScreenBase.emit, uploads, Event.isUpload]
  · simp [UAURVideoScreenBase.emit, enqueues]
  · intro hnone
    have hnone1 : (s.emit [Event.UE_LOG .Error .DriverIsNull]).VideoDriver = none := hnone
    exact ⟨hnone1, (UAURVideoScreenBase.Frame_idle _
        { CurrentFirstMip := 0, NewFrameAvailable := false, Frame := none } (Or.inr hnone1)).1,
      fun rs => UAURVideoScreenBase.RunFrames_idle rs _ (Or.inr hnone1)⟩

/-- Scenario S5 for C10: a null driver passed to a fresh component gives one error
entry, no driver, and no upload or enqueue over ten frames. -/
theorem C10_S5_witness :
    ∃ s1 s2,
      UAURVideoScreenBase.Initialize (FMath.mk Real.tan Real.sqrt Real.pi)
        (freshScreen true [some (plainMaterial 1 true)] (100 : ℝ))
        (scenarioEngine 640 480 (60 : ℝ) (4 / 3) (some { id := 10, Resource := 11 }))
        none = some s1 ∧
      errors s1.Trace = 1 ∧ s1.VideoDriver = none ∧
      s1.RunFrames (alternatingFrames 10) = some s2 ∧
      uploads s2.Trace = 0 ∧ enqueues s2.Trace = 0 := by
  obtain ⟨s1, h1, -, h3, h4, h5, -, -, -, -, -, -, -, -, h14⟩ :=
    C10_null_driver (FMath.mk Real.tan Real.sqrt Real.pi)
      (freshScreen true [some (plainMaterial 1 true)] (100 : ℝ))
      (scenarioEngine 640 480 (60 : ℝ) (4 / 3) (some { id := 10, Resource := 11 }))
  obtain ⟨h6, -, h8⟩ := h14 rfl
  exact ⟨s1, s1, h1, h3, h6, h8 _, h4, h5⟩

/-- C6, the code at the failing input. A component as its constructor leaves it, whose
only material lacks the parameter, is attached to driver 7: the bind fails with the
no-material error and the record stays unpopulated, but the driver reference is kept, so
the next tick enqueues the render command, and the command then dereferences the null
resource pointer. When instead `CreateTransient` fails (on a component with
`bSetSizeAutomatically` switched off), the driver reference is cleared and the tick
enqueues nothing. -/
theorem C6_no_material_tick_enqueues :
    (∃ s1, UAURVideoScreenBase.Initialize (FMath.mk Real.tan Real.sqrt Real.pi)
        (freshScreen true [some (plainMaterial 1 false)] (100 : ℝ))
        (scenarioEngine 640 480 (60 : ℝ) (4 / 3) (some { id := 10, Resource := 11 }))
        (some 7) = some s1 ∧
      Event.UE_LOG .Error .NoVideoMaterial ∈ s1.Trace ∧
      s1.TextureUpdateParameters.Texture2DResource = none ∧
      s1.VideoDriver = some 7 ∧
      s1.TickComponent =
        (s1.emit [Event.EnqueueRenderCommand], [RenderCommand.UpdateTextureRenderCommand]) ∧
      ∀ r : RenderFrame, s1.Frame r = none) ∧
    (∃ s1, UAURVideoScreenBase.Initialize (FMath.mk Real.tan Real.sqrt Real.pi)
        (freshScreen false [some (plainMaterial 1 true)] (100 : ℝ))
        (scenarioEngine 640 480 (60 : ℝ) (4 / 3) none)
        (some 7) = some s1 ∧
      s1.VideoDriver = none ∧ s1.TickComponent = (s1, [])) := by
  constructor
  · obtain ⟨e, he, hafter⟩ := UAURVideoScreenBase.Initialize_after_bind
      (FMath.mk Real.tan Real.sqrt Real.pi)
      (freshScreen true [some (plainMaterial 1 false)] (100 : ℝ))
      (scenarioEngine 640 480 (60 : ℝ) (4 / 3) (some { id := 10, Resource := 11 })) 7
    have hbind := UAURVideoScreenBase.InitDynamicTexture_noMaterial
      ({ freshScreen true [some (plainMaterial 1 false)] (100 : ℝ) with
          VideoDriver := some 7 }.emit [e])
      (scenarioEngine 640 480 (60 : ℝ) (4 / 3) (some { id := 10, Resource := 11 }))
      (by intro o ho
          simp only [UAURVideoScreenBase.emit, freshScreen, List.mem_singleton] at ho
          exact ⟨plainMaterial 1 false, ho, rfl⟩)
    obtain ⟨scale, -, hinit⟩ := hafter _ hbind rfl
    refine ⟨_, hinit, ?_, rfl, rfl, ?_, ?_⟩
    · simp [UAURVideoScreenBase.emit]
    · exact (UAURVideoScreenBase.Frame_active _
        { CurrentFirstMip := 0, NewFrameAvailable := false, Frame := none } 7 rfl rfl).1
    · intro r
      rw [(UAURVideoScreenBase.Frame_active _ r 7 rfl rfl).2]
      rfl
  · obtain ⟨e, -, hinit⟩ := (UAURVideoScreenBase.Initialize_allocation_failed
      (FMath.mk Real.tan Real.sqrt Real.pi)
      (freshScreen false [some (plainMaterial 1 true)] (100 : ℝ))
      (scenarioEngine 640 480 (60 : ℝ) (4 / 3) none) 7 0 (plainMaterial 1 true)
      ⟨rfl, rfl, fun j hj => absurd hj (Nat.not_lt_zero j)⟩ rfl).2 rfl
    refine ⟨_, hinit, rfl, ?_⟩
    exact (UAURVideoScreenBase.Frame_idle _
      { CurrentFirstMip := 0, NewFrameAvailable := false, Frame := none } (Or.inr rfl)).1

/-- C7, counterexample. A fresh component with `bSetSizeAutomatically` set, placed at
distance 50, whose only material lacks the parameter, is attached to a driver reporting
`(1920, 1080, 90°, 16/9)`: the bind fails with the no-material error and no texture is
kept, yet the sizer runs: it queries the driver and changes the scale from `(1, 1, 1)`
to `(1, 0.5625, 1)`. -/
theorem C7_counterexample :
    ∃ s1, UAURVideoScreenBase.Initialize (FMath.mk Real.tan Real.sqrt Real.pi)
        (freshScreen true [some (plainMaterial 1 false)] (50 : ℝ))
        (scenarioEngine 1920 1080 (90 : ℝ) (16 / 9) (some { id := 10, Resource := 11 }))
        (some 7) = some s1 ∧
      Event.UE_LOG .Error .NoVideoMaterial ∈ s1.Trace ∧
      s1.DynamicTexture = none ∧
      s1.TextureUpdateParameters.Texture2DResource = none ∧
      Event.GetCameraParameters 7 .InitScreenSize ∈ s1.Trace ∧
      Event.SetRelativeScale3D ∈ s1.Trace ∧
      (freshScreen true [some (plainMaterial 1 false)] (50 : ℝ)).RelativeScale3D.Y = 1 ∧
      s1.RelativeScale3D.Y = 0.5625 ∧ s1.RelativeScale3D.Y ≠ 1 := by
  obtain ⟨e, he, hafter⟩ := UAURVideoScreenBase.Initialize_after_bind
    (FMath.mk Real.tan Real.sqrt Real.pi)
    (freshScreen true [some (plainMaterial 1 false)] (50 : ℝ))
    (scenarioEngine 1920 1080 (90 : ℝ) (16 / 9) (some { id := 10, Resource := 11 })) 7
  have hbind := UAURVideoScreenBase.InitDynamicTexture_noMaterial
    ({ freshScreen true [some (plainMaterial 1 false)] (50 : ℝ) with
        VideoDriver := some 7 }.emit [e])
    (scenarioEngine 1920 1080 (90 : ℝ) (16 / 9) (some { id := 10, Resource := 11 }))
    (by intro o ho
        simp only [UAURVideoScreenBase.emit, freshScreen, List.mem_singleton] at ho
        exact ⟨plainMaterial 1 false, ho, rfl⟩)
  obtain ⟨scale, hsize, hinit⟩ := hafter _ hbind rfl
  obtain ⟨s4, h4, -, hy, -⟩ := InitScreenSize_S2 _
    (scenarioEngine 1920 1080 (90 : ℝ) (16 / 9) (some { id := 10, Resource := 11 })) 7
    (show ((({ freshScreen true [some (plainMaterial 1 false)] (50 : ℝ) with
        VideoDriver := some 7 }.emit [e]).emit
        [Event.UE_LOG .Error .NoVideoMaterial]).VideoDriver = some 7) from rfl) rfl rfl rfl
  rw [hsize] at h4
  have hscale : scale.Y = 0.5625 := by
    rw [← Option.some.inj h4] at hy
    exact hy
  refine ⟨_, hinit, ?_, rfl, rfl, ?_, ?_, rfl, hscale, ?_⟩
  · simp [UAURVideoScreenBase.emit]
  · simp [UAURVideoScreenBase.emit, freshScreen]
  · simp [UAURVideoScreenBase.emit, freshScreen]
  · show scale.Y ≠ 1
    rw [hscale]; norm_num

/-- C7, amended. For every attach with a non-null driver in which the material search
ends (at a first declaring slot, or after all slots when every slot holds a material and
none declares the parameter), leaving out the attach in which `CreateTransient` fails
while `bSetSizeAutomatically` is set: `Initialize` returns, and the sizer runs exactly
when `bSetSizeAutomatically` is set, whether the bind succeeded or failed. With the flag set the sizer queries the driver once and sets
the scale once, to the value `InitScreenSize` computes for that driver; with the flag
clear the sizer makes no driver query, the scale is never set and keeps its value. -/
theorem C7_sizer_runs_iff_auto_size {K : Type} [Field K] (M : FMath K)
    (s : UAURVideoScreenBase K) (env : Engine K) (driver : Nat)
    (hsearch : (∃ (k : Nat) (m : UMaterialInterface), IsFirstVideoSlot s.Materials k m) ∨
      NoVideoSlot s.Materials)
    (hkept : s.bSetSizeAutomatically = true →
      (∃ (k : Nat) (m : UMaterialInterface), IsFirstVideoSlot s.Materials k m) →
      env.CreateTransient (env.GetCameraParameters driver).resolution.X
        (env.GetCameraParameters driver).resolution.Y ≠ none) :
    ∃ s1 es, UAURVideoScreenBase.Initialize M s env (some driver) = some s1 ∧
      s1.Trace = s.Trace ++ es ∧
      (s.bSetSizeAutomatically = true →
        es.count Event.SetRelativeScale3D = 1 ∧
        es.count (Event.GetCameraParameters driver .InitScreenSize) = 1 ∧
        ∃ s4, UAURVideoScreenBase.InitScreenSize M { s with VideoDriver := some driver } env
            = some s4 ∧
          s1.RelativeScale3D = s4.RelativeScale3D) ∧
      (s.bSetSizeAutomatically = false →
        es.count Event.SetRelativeScale3D = 0 ∧
        (∀ d : Nat, es.count (Event.GetCameraParameters d .InitScreenSize) = 0) ∧
        s1.RelativeScale3D = s.RelativeScale3D) := by
  have hsizer : ∀ (s3 : UAURVideoScreenBase K) (scale : FVector K),
      UAURVideoScreenBase.InitScreenSize M s3 env = some { s3 with
        RelativeScale3D := scale,
        Trace := s3.Trace ++ [Event.GetCameraParameters driver .InitScreenSize,
          Event.UE_LOG .Log .ScreenSize, Event.SetRelativeScale3D] } →
      s3.VideoDriver = some driver → s3.RelativeLocation = s.RelativeLocation →
      ∃ s4, UAURVideoScreenBase.InitScreenSize M { s with VideoDriver := some driver } env
          = some s4 ∧ scale = s4.RelativeScale3D := by
    intro s3 scale hs hd hl
    have hc := UAURVideoScreenBase.InitScreenSize_congr M s3
      { s with VideoDriver := some driver } env hd hl
    rw [hs] at hc
    cases h4 : UAURVideoScreenBase.InitScreenSize M { s with VideoDriver := some driver } env with
    | none => rw [h4] at hc; cases hc
    | some s4 =>
      rw [h4] at hc
      exact ⟨s4, rfl, Option.some.inj hc⟩
  rcases hsearch with ⟨k, m, hfirst⟩ | hmat2
  · cases htex : env.CreateTransient (env.GetCameraParameters driver).resolution.X
        (env.GetCameraParameters driver).resolution.Y with
    | none =>
      have hauto : s.bSetSizeAutomatically = false := by
        cases hb : s.bSetSizeAutomatically
        · rfl
        · exact absurd htex (hkept hb ⟨k, m, hfirst⟩)
      obtain ⟨e, he, hinit⟩ :=
        (UAURVideoScreenBase.Initialize_allocation_failed M s env driver k m hfirst htex).2 hauto
      refine ⟨_, [e] ++
        (if m.isDynamic then []
         else [Event.CreateDynamic m.id s.NewObjectId, Event.SetMaterial k s.NewObjectId]) ++
        [Event.GetCameraParameters driver .InitDynamicTexture,
         Event.CreateTransient (env.GetCameraParameters driver).resolution.X
           (env.GetCameraParameters driver).resolution.Y,
         Event.UE_LOG .Error .CreateTextureFailed,
         Event.UE_LOG .Log .Initialized], hinit, by simp only [List.append_assoc], ?_, ?_⟩
      · intro hb; rw [hauto] at hb; cases hb
      · intro _
        refine ⟨?_, ?_, rfl⟩
        · rcases he with he | he <;> subst he <;> cases m.isDynamic <;> simp
        · intro d
          rcases he with he | he <;> subst he <;> cases m.isDynamic <;> simp
    | some texture =>
      obtain ⟨e, he, hafter⟩ := UAURVideoScreenBase.Initialize_after_bind M s env driver
      have hbind := UAURVideoScreenBase.InitDynamicTexture_first
        ({ s with VideoDriver := some driver }.emit [e]) env driver texture k m hfirst rfl htex
      obtain ⟨scale, hsize, hinit⟩ := hafter _ hbind rfl
      obtain ⟨s4, h4, hscale⟩ := hsizer _ scale hsize rfl rfl
      refine ⟨_, [e] ++
        (if m.isDynamic then []
         else [Event.CreateDynamic m.id s.NewObjectId, Event.SetMaterial k s.NewObjectId]) ++
        [Event.GetCameraParameters driver .InitDynamicTexture,
         Event.CreateTransient (env.GetCameraParameters driver).resolution.X
           (env.GetCameraParameters driver).resolution.Y,
         Event.UpdateResource texture.id,
         Event.SetTextureParameterValue (if m.isDynamic then m.id else s.NewObjectId)
           texture.id] ++
        (if s.bSetSizeAutomatically then
          [Event.GetCameraParameters driver .InitScreenSize,
           Event.UE_LOG .Log .ScreenSize, Event.SetRelativeScale3D]
         else []) ++ [Event.UE_LOG .Log .Initialized], hinit,
        by simp [UAURVideoScreenBase.emit, UAURVideoScreenBase.NewObjectId], ?_, ?_⟩
      · intro hb
        refine ⟨?_, ?_, s4, h4, ?_⟩
        · rcases he with he | he <;> subst he <;> cases m.isDynamic <;> simp [hb]
        · rcases he with he | he <;> subst he <;> cases m.isDynamic <;> simp [hb]
        · simp only [hb, if_true]; exact hscale
      · intro hb
        refine ⟨?_, ?_, ?_⟩
        · rcases he with he | he <;> subst he <;> cases m.isDynamic <;> simp [hb]
        · intro d
          rcases he with he | he <;> subst he <;> cases m.isDynamic <;> simp [hb]
        · simp [UAURVideoScreenBase.emit, hb]
  · obtain ⟨e, he, hafter⟩ := UAURVideoScreenBase.Initialize_after_bind M s env driver
    have hbind := UAURVideoScreenBase.InitDynamicTexture_noMaterial
      ({ s with VideoDriver := some driver }.emit [e]) env hmat2
    obtain ⟨scale, hsize, hinit⟩ := hafter _ hbind rfl
    obtain ⟨s4, h4, hscale⟩ := hsizer _ scale hsize rfl rfl
    refine ⟨_, [e, Event.UE_LOG .Error .NoVideoMaterial] ++
      (if s.bSetSizeAutomatically then
        [Event.GetCameraParameters driver .InitScreenSize,
         Event.UE_LOG .Log .ScreenSize, Event.SetRelativeScale3D]
       else []) ++ [Event.UE_LOG .Log .Initialized], hinit,
      by simp [UAURVideoScreenBase.emit], ?_, ?_⟩
    · intro hb
      refine ⟨?_, ?_, s4, h4, ?_⟩
      · rcases he with he | he <;> subst he <;> simp [UAURVideoScreenBase.emit, hb]
      · rcases he with he | he <;> subst he <;> simp [UAURVideoScreenBase.emit, hb]
      · simp only [UAURVideoScreenBase.emit, hb, if_true]; exact hscale
    · intro hb
      refine ⟨?_, ?_, ?_⟩
      · rcases he with he | he <;> subst he <;> simp [UAURVideoScreenBase.emit, hb]
      · intro d
        rcases he with he | he <;> subst he <;> simp [UAURVideoScreenBase.emit, hb]
      · simp [UAURVideoScreenBase.emit, hb]

/-- Scenario for C7: the attach of the counterexample satisfies the amended claim; the
flag is set, so the sizer sets the scale once and queries the driver once. -/
theorem C7_witness :
    ∃ s1 es, UAURVideoScreenBase.Initialize (FMath.mk Real.tan Real.sqrt Real.pi)
        (freshScreen true [some (plainMaterial 1 false)] (50 : ℝ))
        (scenarioEngine 1920 1080 (90 : ℝ) (16 / 9) (some { id := 10, Resource := 11 }))
        (some 7) = some s1 ∧
      s1.Trace = es ∧
      es.count Event.SetRelativeScale3D = 1 ∧
      es.count (Event.GetCameraParameters 7 .InitScreenSize) = 1 := by
  obtain ⟨s1, es, h1, h2, h3, -⟩ :=
    C7_sizer_runs_iff_auto_size (FMath.mk Real.tan Real.sqrt Real.pi)
      (freshScreen true [some (plainMaterial 1 false)] (50 : ℝ))
      (scenarioEngine 1920 1080 (90 : ℝ) (16 / 9) (some { id := 10, Resource := 11 })) 7
      (Or.inr (by
        intro o ho
        simp only [freshScreen, List.mem_singleton] at ho
        exact ⟨plainMaterial 1 false, ho, rfl⟩))
      (by intro _ _; simp [scenarioEngine])
  obtain ⟨h4, h5, -⟩ := h3 rfl
  exact ⟨s1, es, h1, by rw [h2]; rfl, h4, h5⟩

/-! ## Material slots -/

/-- `Initialize` when the search reaches an empty slot: the null dereference in
`FindVideoMaterial` ends the call, after the driver was stored. -/
theorem Initialize_empty {K : Type} [Field K] (M : FMath K) (s : UAURVideoScreenBase K)
    (env : Engine K) (driver k : Nat) (h : EmptySlotReached s.Materials k) :
    UAURVideoScreenBase.Initialize M s env (some driver) = none := by
  obtain ⟨e, -, hinit⟩ := UAURVideoScreenBase.Initialize_some M s env driver
  have hempty := UAURVideoScreenBase.InitDynamicTexture_empty
    ({ s with VideoDriver := some driver }.emit [e]) env k h
  rw [hinit, hempty]

/-- Material slot selection when the search reaches no empty slot: `FindVideoMaterial`
selects the first declaring slot `k`; after the call slot `k` holds a dynamic instance,
whose address is the value returned, and every other slot holds what it held before.
After an attach in which `CreateTransient` returns a texture, slot `k` holds that
dynamic instance with `VideoTexture` equal to the texture, and every other slot that is
empty or holds another object than that instance is untouched; when the instance was
created by the call, that is every other slot. -/
theorem FindVideoMaterial_selects_first_slot {K : Type} [Field K] (M : FMath K)
    (s : UAURVideoScreenBase K) (k : Nat) (m : UMaterialInterface)
    (hfirst : IsFirstVideoSlot s.Materials k m) :
    ∃ (mid : Nat) (s1 : UAURVideoScreenBase K) (dyn : UMaterialInterface),
      s.FindVideoMaterial = some (some mid, s1) ∧
      s1.Materials[k]? = some (some dyn) ∧
      dyn.isDynamic = true ∧ dyn.id = mid ∧
      (∀ j : Nat, j ≠ k → s1.Materials[j]? = s.Materials[j]?) ∧
      s1.Materials.length = s.Materials.length ∧
      (m.isDynamic = false →
        ∀ (j : Nat) (mj : UMaterialInterface), s.Materials[j]? = some (some mj) →
          mj.id ≠ mid) ∧
      ∀ (env : Engine K) (driver : Nat) (texture : UTexture2D),
        env.CreateTransient (env.GetCameraParameters driver).resolution.X
          (env.GetCameraParameters driver).resolution.Y = some texture →
        ∃ s2 dyn1, UAURVideoScreenBase.Initialize M s env (some driver) = some s2 ∧
          s2.DynamicTexture = some texture ∧
          s2.Materials[k]? = some (some dyn1) ∧ dyn1.isDynamic = true ∧ dyn1.id = mid ∧
          dyn1.VideoTexture = some texture.id ∧
          (∀ (j : Nat) (mj : UMaterialInterface), j ≠ k → s.Materials[j]? = some (some mj) →
            mj.id ≠ mid → s2.Materials[j]? = some (some mj)) ∧
          (∀ j : Nat, j ≠ k → s.Materials[j]? = some none →
            s2.Materials[j]? = some none) := by
  have hfind := UAURVideoScreenBase.FindVideoMaterial_first s k m hfirst
  have hklt : k < s.Materials.length := (List.getElem?_eq_some.mp hfirst.1).1
  have hattach : ∀ (env : Engine K) (driver : Nat) (texture : UTexture2D),
      env.CreateTransient (env.GetCameraParameters driver).resolution.X
        (env.GetCameraParameters driver).resolution.Y = some texture →
      ∃ s2 dyn1, UAURVideoScreenBase.Initialize M s env (some driver) = some s2 ∧
        s2.DynamicTexture = some texture ∧
        s2.Materials[k]? = some (some dyn1) ∧ dyn1.isDynamic = true ∧
        dyn1.id = (if m.isDynamic then m.id else s.NewObjectId) ∧
        dyn1.VideoTexture = some texture.id ∧
        (∀ (j : Nat) (mj : UMaterialInterface), j ≠ k → s.Materials[j]? = some (some mj) →
          mj.id ≠ (if m.isDynamic then m.id else s.NewObjectId) →
          s2.Materials[j]? = some (some mj)) ∧
        (∀ j : Nat, j ≠ k → s.Materials[j]? = some none →
          s2.Materials[j]? = some none) := by
    intro env driver texture htex
    obtain ⟨e, -, hafter⟩ := UAURVideoScreenBase.Initialize_after_bind M s env driver
    have hbind := UAURVideoScreenBase.InitDynamicTexture_first
      ({ s with VideoDriver := some driver }.emit [e]) env driver texture k m hfirst rfl htex
    obtain ⟨scale, -, hinit⟩ := hafter _ hbind rfl
    obtain ⟨dyn1, hslot, hd1, -, hd3, hd4, hother, hempty, -⟩ :=
      UAURVideoScreenBase.boundMaterials_spec s k m texture.id hfirst
    exact ⟨_, dyn1, hinit, rfl, hslot, hd1, hd4, hd3, hother, hempty⟩
  cases hdyn : m.isDynamic
  · rw [hdyn] at hfind
    simp only [hdyn, Bool.false_eq_true, if_false] at hfind hattach
    refine ⟨_, _, s.CreateDynamic m, hfind, ?_, rfl, rfl, ?_, ?_, ?_, hattach⟩
    · simp [UAURVideoScreenBase.SetMaterial, UAURVideoScreenBase.emit, List.getElem?_set, hklt]
    · intro j hj
      simp [UAURVideoScreenBase.SetMaterial, UAURVideoScreenBase.emit, List.getElem?_set,
        Ne.symm hj]
    · simp [UAURVideoScreenBase.SetMaterial, UAURVideoScreenBase.emit]
    · intro _ j mj hjm
      have hfresh := UAURVideoScreenBase.NewObjectId_fresh s mj (List.getElem?_mem hjm)
      show mj.id ≠ s.NewObjectId
      omega
  · rw [hdyn] at hfind
    simp only [hdyn, if_true] at hfind hattach
    refine ⟨_, _, m, hfind, hfirst.1, hdyn, rfl, fun _ _ => rfl, rfl, ?_, hattach⟩
    intro hcontra
    exact absurd hcontra (by decide)

/-- Attach with no suitable material when every slot holds a material: the binding step
only logs one error, and `Initialize` with a driver returns; among the events of the
attach there is the no-material error, no `CreateTransient` call and no
`GetCameraParameters` call made by the binding step; the material slots, the texture
reference and the record are as before, and the driver reference is the driver passed
in. -/
theorem Initialize_no_video_slot {K : Type} [Field K] (M : FMath K)
    (s : UAURVideoScreenBase K) (env : Engine K) (driver : Nat)
    (hmat : NoVideoSlot s.Materials) :
    s.InitDynamicTexture env = some (s.emit [Event.UE_LOG .Error .NoVideoMaterial]) ∧
    ∃ s1 es, UAURVideoScreenBase.Initialize M s env (some driver) = some s1 ∧
      s1.Trace = s.Trace ++ es ∧
      Event.UE_LOG .Error .NoVideoMaterial ∈ es ∧
      (∀ e ∈ es, e.isCreateTransient = false) ∧
      (∀ d : Nat, Event.GetCameraParameters d .InitDynamicTexture ∉ es) ∧
      s1.Materials = s.Materials ∧ s1.DynamicTexture = s.DynamicTexture ∧
      s1.TextureUpdateParameters = s.TextureUpdateParameters ∧
      s1.VideoDriver = some driver := by
  refine ⟨UAURVideoScreenBase.InitDynamicTexture_noMaterial s env hmat, ?_⟩
  obtain ⟨e, he, hafter⟩ := UAURVideoScreenBase.Initialize_after_bind M s env driver
  have hbind := UAURVideoScreenBase.InitDynamicTexture_noMaterial
    ({ s with VideoDriver := some driver }.emit [e]) env hmat
  obtain ⟨scale, -, hinit⟩ := hafter _ hbind rfl
  refine ⟨_, [e, Event.UE_LOG .Error .NoVideoMaterial] ++
    (if s.bSetSizeAutomatically then
      [Event.GetCameraParameters driver .InitScreenSize,
       Event.UE_LOG .Log .ScreenSize, Event.SetRelativeScale3D]
     else []) ++ [Event.UE_LOG .Log .Initialized], hinit, ?_, ?_, ?_, ?_, rfl, rfl, rfl, rfl⟩
  · simp [UAURVideoScreenBase.emit]
  · simp
  · intro e2 he2
    have hall : (([e, Event.UE_LOG .Error .NoVideoMaterial] ++
        (if s.bSetSizeAutomatically then
          [Event.GetCameraParameters driver .InitScreenSize,
           Event.UE_LOG .Log .ScreenSize, Event.SetRelativeScale3D]
         else []) ++ [Event.UE_LOG .Log .Initialized]).all
        (fun x => !x.isCreateTransient)) = true := by
      rcases he with he | he <;> subst he <;> cases s.bSetSizeAutomatically <;> rfl
    simpa using List.all_eq_true.mp hall e2 he2
  · intro d hd
    have hall : (([e, Event.UE_LOG .Error .NoVideoMaterial] ++
        (if s.bSetSizeAutomatically then
          [Event.GetCameraParameters driver .InitScreenSize,
           Event.UE_LOG .Log .ScreenSize, Event.SetRelativeScale3D]
         else []) ++ [Event.UE_LOG .Log .Initialized]).all
        (fun x => decide (x ≠ Event.GetCameraParameters d .InitDynamicTexture))) = true := by
      rcases he with he | he <;> subst he <;> cases s.bSetSizeAutomatically <;> simp
    simpa using List.all_eq_true.mp hall _ hd

/-- Material promotion idempotence when the search reaches no empty slot: searching
again right after `FindVideoMaterial` returns the same instance and changes nothing.
Run `InitDynamicTexture` twice on a component with a driver, the first run allocating
its texture: both runs return and act on the same slot `k`, the first declaring one; the
second run creates no instance and does not call `SetMaterial`, so over both runs at
most one instance is created; after the second run slot `k` holds the same dynamic instance
as after the first, and when the second run allocates a texture the instance's
`VideoTexture` is that texture. If the material in slot `k` was dynamic before the first
run, the first run creates no instance and does not call `SetMaterial` either, and the
slot keeps that object. -/
theorem InitDynamicTexture_twice {K : Type} (s : UAURVideoScreenBase K) (k : Nat)
    (m : UMaterialInterface) (hfirst : IsFirstVideoSlot s.Materials k m) :
    (∃ (mid : Nat) (s1 : UAURVideoScreenBase K),
      s.FindVideoMaterial = some (some mid, s1) ∧
      s1.FindVideoMaterial = some (some mid, s1)) ∧
    ∀ (env1 env2 : Engine K) (driver : Nat) (texture1 : UTexture2D),
      s.VideoDriver = some driver →
      env1.CreateTransient (env1.GetCameraParameters driver).resolution.X
        (env1.GetCameraParameters driver).resolution.Y = some texture1 →
      ∃ (s1 s2 : UAURVideoScreenBase K) (dyn1 dyn2 : UMaterialInterface)
        (es1 es2 : List Event),
        s.InitDynamicTexture env1 = some s1 ∧ s1.Trace = s.Trace ++ es1 ∧
        s1.InitDynamicTexture env2 = some s2 ∧ s2.Trace = s1.Trace ++ es2 ∧
        (es1 ++ es2).countP Event.isCreateDynamic ≤ 1 ∧
        es2.countP Event.isCreateDynamic = 0 ∧ es2.countP Event.isSetMaterial = 0 ∧
        s1.Materials[k]? = some (some dyn1) ∧ dyn1.isDynamic = true ∧
        dyn1.VideoTexture = some texture1.id ∧
        s2.Materials[k]? = some (some dyn2) ∧ dyn2.isDynamic = true ∧ dyn2.id = dyn1.id ∧
        (∀ texture2 : UTexture2D,
          env2.CreateTransient (env2.GetCameraParameters driver).resolution.X
            (env2.GetCameraParameters driver).resolution.Y = some texture2 →
          dyn2.VideoTexture = some texture2.id ∧ s2.DynamicTexture = some texture2) ∧
        (m.isDynamic = true →
          es1.countP Event.isCreateDynamic = 0 ∧ es1.countP Event.isSetMaterial = 0 ∧
          dyn1.id = m.id) := by
  refine ⟨UAURVideoScreenBase.FindVideoMaterial_idem s k m hfirst, ?_⟩
  intro env1 env2 driver texture1 hdrv htex1
  have h1 := UAURVideoScreenBase.InitDynamicTexture_first s env1 driver texture1 k m hfirst hdrv
    htex1
  obtain ⟨dyn1, hslot1, hd1, -, hd3, hd4, -, -, hfirst1⟩ :=
    UAURVideoScreenBase.boundMaterials_spec s k m texture1.id hfirst
  cases hrun1 : s.InitDynamicTexture env1 with
  | none => rw [hrun1] at h1; cases h1
  | some s1 =>
    rw [hrun1] at h1
    have hs1 := Option.some.inj h1
    have hm1 : s1.Materials =
        (if m.isDynamic then s.Materials
          else s.Materials.set k (some (s.CreateDynamic m))).map (Option.map
          (fun x => if x.id = (if m.isDynamic then m.id else s.NewObjectId)
            then { x with VideoTexture := some texture1.id } else x)) := by rw [hs1]
    have hdrv1 : s1.VideoDriver = some driver := by rw [hs1]; exact hdrv
    have htr1 : s1.Trace = s.Trace ++
        ((if m.isDynamic then []
          else [Event.CreateDynamic m.id s.NewObjectId, Event.SetMaterial k s.NewObjectId]) ++
        [Event.GetCameraParameters driver .InitDynamicTexture,
         Event.CreateTransient (env1.GetCameraParameters driver).resolution.X
           (env1.GetCameraParameters driver).resolution.Y,
         Event.UpdateResource texture1.id,
         Event.SetTextureParameterValue (if m.isDynamic then m.id else s.NewObjectId)
           texture1.id]) := by rw [hs1]; simp
    rw [← hm1] at hslot1 hfirst1
    have hcount1 : ((if m.isDynamic then []
          else [Event.CreateDynamic m.id s.NewObjectId, Event.SetMaterial k s.NewObjectId]) ++
        [Event.GetCameraParameters driver .InitDynamicTexture,
         Event.CreateTransient (env1.GetCameraParameters driver).resolution.X
           (env1.GetCameraParameters driver).resolution.Y,
         Event.UpdateResource texture1.id,
         Event.SetTextureParameterValue (if m.isDynamic then m.id else s.NewObjectId)
           texture1.id]).countP Event.isCreateDynamic ≤ 1 := by
      cases m.isDynamic <;> simp [Event.isCreateDynamic]
    have hreuse : m.isDynamic = true →
        ((if m.isDynamic then []
          else [Event.CreateDynamic m.id s.NewObjectId, Event.SetMaterial k s.NewObjectId]) ++
        [Event.GetCameraParameters driver .InitDynamicTexture,
         Event.CreateTransient (env1.GetCameraParameters driver).resolution.X
           (env1.GetCameraParameters driver).resolution.Y,
         Event.UpdateResource texture1.id,
         Event.SetTextureParameterValue (if m.isDynamic then m.id else s.NewObjectId)
           texture1.id]).countP Event.isCreateDynamic = 0 ∧
        ((if m.isDynamic then []
          else [Event.CreateDynamic m.id s.NewObjectId, Event.SetMaterial k s.NewObjectId]) ++
        [Event.GetCameraParameters driver .InitDynamicTexture,
         Event.CreateTransient (env1.GetCameraParameters driver).resolution.X
           (env1.GetCameraParameters driver).resolution.Y,
         Event.UpdateResource texture1.id,
         Event.SetTextureParameterValue (if m.isDynamic then m.id else s.NewObjectId)
           texture1.id]).countP Event.isSetMaterial = 0 ∧ dyn1.id = m.id := by
      intro hdyn
      rw [hd4]
      simp [hdyn, Event.isCreateDynamic, Event.isSetMaterial]
    cases htex2 : env2.CreateTransient (env2.GetCameraParameters driver).resolution.X
        (env2.GetCameraParameters driver).resolution.Y with
    | none =>
      have h2 := UAURVideoScreenBase.InitDynamicTexture_first_failed s1 env2 driver k dyn1
        hfirst1 hdrv1 htex2
      simp only [hd1, if_true, List.append_nil] at h2
      refine ⟨s1, _, dyn1, dyn1, _, _, rfl, htr1, h2,
        rfl, ?_, ?_, ?_, hslot1, hd1, hd3, hslot1, hd1, rfl, ?_, hreuse⟩
      · rw [List.countP_append]
        have : List.countP Event.isCreateDynamic
            [Event.GetCameraParameters driver .InitDynamicTexture,
             Event.CreateTransient (env2.GetCameraParameters driver).resolution.X
               (env2.GetCameraParameters driver).resolution.Y,
             Event.UE_LOG .Error .CreateTextureFailed] = 0 := by
          simp [Event.isCreateDynamic]
        omega
      · simp [Event.isCreateDynamic]
      · simp [Event.isSetMaterial]
      · intro texture2 hcontra
        cases hcontra
    | some texture2 =>
      have h2 := UAURVideoScreenBase.InitDynamicTexture_first s1 env2 driver texture2 k dyn1
        hfirst1 hdrv1 htex2
      obtain ⟨dyn2, hslot2, he1, -, he3, he4, -, -, -⟩ :=
        UAURVideoScreenBase.boundMaterials_spec s1 k dyn1 texture2.id hfirst1
      simp only [hd1, if_true, List.append_nil] at h2 hslot2 he4
      refine ⟨s1, _, dyn1, dyn2, _, _, rfl, htr1, h2,
        rfl, ?_, ?_, ?_, hslot1, hd1, hd3, hslot2, he1, he4, ?_, hreuse⟩
      · rw [List.countP_append]
        have : List.countP Event.isCreateDynamic
            [Event.GetCameraParameters driver .InitDynamicTexture,
             Event.CreateTransient (env2.GetCameraParameters driver).resolution.X
               (env2.GetCameraParameters driver).resolution.Y,
             Event.UpdateResource texture2.id,
             Event.SetTextureParameterValue dyn1.id texture2.id] = 0 := by
          simp [Event.isCreateDynamic]
        omega
      · simp [Event.isCreateDynamic]
      · simp [Event.isSetMaterial]
      · intro texture3 h3
        have h23 : texture2 = texture3 := Option.some.inj h3
        subst h23
        exact ⟨he3, rfl⟩

/-- C5, the code at the failing input. On a mesh whose slot 0 is empty and whose slot 1
holds a material declaring `VideoTexture`, the loop of `FindVideoMaterial` dereferences
the null pointer `GetMaterial(0)` returns: the search selects no slot, and the attach
does not return. -/
theorem C5_empty_slot_before_declaring :
    (freshScreen true [none, some (plainMaterial 2 true)] (100 : ℝ)).GetMaterial 0 = none ∧
    (freshScreen true [none, some (plainMaterial 2 true)] (100 : ℝ)).GetMaterial 1
      = some (plainMaterial 2 true) ∧
    (plainMaterial 2 true).hasVideoTexture = true ∧
    (freshScreen true [none, some (plainMaterial 2 true)] (100 : ℝ)).FindVideoMaterial = none ∧
    UAURVideoScreenBase.Initialize (FMath.mk Real.tan Real.sqrt Real.pi)
      (freshScreen true [none, some (plainMaterial 2 true)] (100 : ℝ))
      (scenarioEngine 640 480 (60 : ℝ) (4 / 3) (some { id := 10, Resource := 11 }))
      (some 7) = none := by
  have hempty : EmptySlotReached
      (freshScreen true [none, some (plainMaterial 2 true)] (100 : ℝ)).Materials 0 :=
    ⟨rfl, fun j hj => absurd hj (Nat.not_lt_zero j)⟩
  exact ⟨rfl, rfl, rfl, UAURVideoScreenBase.FindVideoMaterial_empty _ 0 hempty,
    Initialize_empty _ _ _ 7 0 hempty⟩

/-- C8, the code at the failing input. On a component with driver 7 whose slot 0 is
empty and whose slot 1 holds a material declaring `VideoTexture`, the first run of
`InitDynamicTexture` does not return: `FindVideoMaterial` dereferences the null pointer
of slot 0, no dynamic instance is installed and there is no second run. -/
theorem C8_empty_slot_first_run :
    ({ freshScreen true [none, some (plainMaterial 2 true)] (100 : ℝ) with
        VideoDriver := some 7 }).Materials[1]? = some (some (plainMaterial 2 true)) ∧
    (plainMaterial 2 true).hasVideoTexture = true ∧
    ({ freshScreen true [none, some (plainMaterial 2 true)] (100 : ℝ) with
        VideoDriver := some 7 }).InitDynamicTexture
      (scenarioEngine 640 480 (60 : ℝ) (4 / 3) (some { id := 10, Resource := 11 })) = none := by
  refine ⟨rfl, rfl, UAURVideoScreenBase.InitDynamicTexture_empty _ _ 0 ?_⟩
  exact ⟨rfl, fun j hj => absurd hj (Nat.not_lt_zero j)⟩

/-- C9, the code at the failing input. On a mesh whose slot 0 holds a material without
the parameter and whose slot 1 is empty, no slot's material declares `VideoTexture`, yet
the attach logs nothing and does not return: the binding step dereferences the null
pointer of slot 1 in `FindVideoMaterial`. -/
theorem C9_empty_slot_no_error :
    (∀ m : UMaterialInterface,
      some m ∈ (freshScreen true [some (plainMaterial 1 false), none] (100 : ℝ)).Materials →
      m.hasVideoTexture = false) ∧
    ({ freshScreen true [some (plainMaterial 1 false), none] (100 : ℝ) with
        VideoDriver := some 7 }).InitDynamicTexture
      (scenarioEngine 640 480 (60 : ℝ) (4 / 3) (some { id := 10, Resource := 11 })) = none ∧
    UAURVideoScreenBase.Initialize (FMath.mk Real.tan Real.sqrt Real.pi)
      (freshScreen true [some (plainMaterial 1 false), none] (100 : ℝ))
      (scenarioEngine 640 480 (60 : ℝ) (4 / 3) (some { id := 10, Resource := 11 }))
      (some 7) = none := by
  have hempty : EmptySlotReached
      (freshScreen true [some (plainMaterial 1 false), none] (100 : ℝ)).Materials 1 := by
    refine ⟨rfl, ?_⟩
    intro j hj
    have hj0 : j = 0 := by omega
    subst hj0
    exact ⟨plainMaterial 1 false, rfl, rfl⟩
  refine ⟨?_, UAURVideoScreenBase.InitDynamicTexture_empty _ _ 1 hempty,
    Initialize_empty _ _ _ 7 1 hempty⟩
  intro m hm
  simp [freshScreen] at hm
  rw [hm]; rfl


end AUR
